import Mathlib

/-!
A file-size daemon over a Unix socket: embedding of `src/main.c`.

The C program is embedded as pure functions that return the list of
externally visible effects (system and library calls, in program order)
together with the way control leaves the function.  Results of calls into
the operating system or into a library are inputs of the embedding.
-/

namespace Daemon

/-! ## Strings and buffers -/

/-- The terminating character of a C string. -/
def NUL : Char := Char.ofNat 0

/-- The line feed written by the conversion `\n`. -/
def NL : Char := Char.ofNat 10

/-- The characters of a C string, read from a character sequence up to (and
without) the first NUL. -/
def c_str (s : List Char) : List Char := s.takeWhile (fun c => c != NUL)

/-- Function `strlen`: the number of characters before the first NUL. -/
def strlen (s : List Char) : Nat := (c_str s).length

/-- Conversion `%s` of the printf family: the argument is copied up to its
terminator. -/
def fmt_s (arg : List Char) : List Char := c_str arg

/-- Conversion `%ld` of the printf family: a minus sign for a negative value,
then the decimal digits of the magnitude. -/
def fmt_ld (v : Int) : List Char :=
  if v < 0 then '-' :: (Nat.repr v.natAbs).toList else (Nat.repr v.toNat).toList

/-- `snprintf(buf, size, ...)`: of the formatted text, at most `size - 1`
characters are stored in front of the terminator. -/
def snprintf (size : Nat) (formatted : List Char) : List Char := formatted.take (size - 1)

/-- Macro `BUF_SIZE` (main.c, line 22). -/
def BUF_SIZE : Nat := 1024

/-- Exit status `EXIT_SUCCESS`. -/
def EXIT_SUCCESS : Int := 0

/-- Exit status `EXIT_FAILURE`. -/
def EXIT_FAILURE : Int := 1

/-! ## Effects -/

/-- Severity levels handed to `syslog`. -/
inductive Severity where
  | LOG_CRIT
  | LOG_ERR
  | LOG_WARNING
  | LOG_INFO
  | LOG_DEBUG
  deriving DecidableEq, Repr

/-- Signal number `SIGPIPE`. -/
def SIGPIPE : Int := 13

/-- What a `write` on a connection does.  It returns a value (the number of
bytes taken, or -1); or, when the peer has already closed the connection, the
system raises `SIGPIPE`, whose disposition the program never changes, and with
the default disposition the process is terminated inside the call. -/
inductive WriteResult where
  | returned (ret : Int)
  | sigpipe
  deriving DecidableEq, Repr

/-- One externally visible action of the process.  Where the program looks at
the value a call returns, the value is recorded with the call. -/
inductive Effect where
  | print_stderr (text : List Char)
  | print_stdout (text : List Char)
  | getopt_diag (c : Char)
  | access_F_OK (path : List Char)
  | access_R_OK (path : List Char)
  | openlog
  | closelog
  | cfg_parse (path : List Char) (ret : Int)
  | cfg_free
  | syslog (sev : Severity) (msg : List Char)
  | signal (sig : Int)
  | umask (mask : Nat)
  | getrlimit (ret : Int)
  | perror (msg : List Char)
  | fork (ret : Int)
  | setsid
  | sigaction_ignore (sig : Int) (ret : Int)
  | chdir (path : List Char) (ret : Int)
  | open_rdwr (path : List Char) (ret : Int)
  | dup (fd : Int) (ret : Int)
  | unlink (path : List Char)
  | socket (ret : Int)
  | bind (fd : Int) (sun_path : List Char) (ret : Int)
  | listen (fd : Int) (backlog : Nat) (ret : Int)
  | chmod (path : List Char) (mode : Nat)
  | accept (fd : Int) (ret : Int)
  | stat (path : List Char)
  | write (fd : Int) (buf : List Char) (res : WriteResult)
  | close (fd : Int)
  deriving DecidableEq, Repr

/-- What `stat(file_path, &st)` gave: failure with the text `strerror(errno)`
yields for it, or success with the field `st_size`. -/
inductive StatResult where
  | fail (strerror : List Char)
  | ok (st_size : Int)
  deriving DecidableEq, Repr

/-- How control leaves a function: it returns a value, the process exits with
a status, the process is terminated by a signal, the execution has no defined
meaning (null pointer read, read past an array), or the process waits for
ever in `accept`. -/
inductive Outcome (α : Type) where
  | returns (a : α)
  | exits (status : Int)
  | killed (sig : Int)
  | undefined
  | blocked
  deriving DecidableEq, Repr

/-- Sequencing: the continuation runs when the first part returns. -/
def andThen {α β : Type} (r : List Effect × Outcome α)
    (k : α → List Effect × Outcome β) : List Effect × Outcome β :=
  match r.2 with
  | .returns a => (r.1 ++ (k a).1, (k a).2)
  | .exits s => (r.1, .exits s)
  | .killed sig => (r.1, .killed sig)
  | .undefined => (r.1, .undefined)
  | .blocked => (r.1, .blocked)

/-! ## `handle_request` (main.c, lines 219-233) -/

/-- The text `handle_request` stores in `response`. -/
def response_of (st : StatResult) : List Char :=
  match st with
  | .fail e => snprintf BUF_SIZE ("ERROR: ".toList ++ fmt_s e ++ [NL])
  | .ok size => snprintf BUF_SIZE (fmt_ld size ++ [NL])

/-- The severity of the entry `handle_request` sends to the system log. -/
def request_severity : StatResult → Severity
  | .fail _ => .LOG_WARNING
  | .ok _ => .LOG_DEBUG

/-- The text of the entry `handle_request` sends to the system log. -/
def request_message (file_path : List Char) : StatResult → List Char
  | .fail e =>
      "Failed to get file size for ".toList ++ fmt_s file_path ++ ": ".toList ++ fmt_s e
  | .ok size => "Sent file size ".toList ++ fmt_ld size ++ " for ".toList ++ fmt_s file_path

/-- Function `handle_request`.  `st` is the outcome of `stat`, `w` what the
call of `write` does.  The function does not look at the value `write`
returns; when `write` raises `SIGPIPE` the process ends there and `close` is
not reached. -/
def handle_request (client_socket : Int) (file_path : List Char) (st : StatResult)
    (w : WriteResult) : List Effect × Outcome Unit :=
  let response := response_of st
  match w with
  | .returned ret =>
    ([ .stat file_path,
       .syslog (request_severity st) (request_message file_path st),
       .write client_socket (response.take (strlen response)) (.returned ret),
       .close client_socket ], .returns ())
  | .sigpipe =>
    ([ .stat file_path,
       .syslog (request_severity st) (request_message file_path st),
       .write client_socket (response.take (strlen response)) .sigpipe ],
     .killed SIGPIPE)

/-! ## Process state and signals -/

/-- Signal number `SIGINT`. -/
def SIGINT : Int := 2

/-- Signal number `SIGTERM`. -/
def SIGTERM : Int := 15

/-- Signal number `SIGHUP`. -/
def SIGHUP : Int := 1

/-- The variables of the program that outlive a function call: the flag
`is_running` (line 30) and the two `static` pointers of `read_config`
(lines 176-177), where `none` is the null pointer. -/
structure Globals where
  is_running : Int
  file_path : Option (List Char)
  socket_path : Option (List Char)
  deriving DecidableEq, Repr

/-- The initial values given by the initialisers in the source. -/
def Globals.initial : Globals := { is_running := 1, file_path := none, socket_path := none }

/-- Function `handle_signal` (lines 211-217). -/
def handle_signal (sig : Int) (g : Globals) : Globals :=
  if sig = SIGINT ∨ sig = SIGTERM then { g with is_running := 0 } else g

/-- The handler run once for each signal of a list, in order of delivery. -/
def deliver (sigs : List Int) (g : Globals) : Globals :=
  sigs.foldl (fun acc sig => handle_signal sig acc) g

/-- Constants of the system headers that the source uses and does not define. -/
structure Platform where
  PATH_MAX : Nat
  SUN_PATH_SIZE : Nat
  RLIM_INFINITY : Nat
  deriving DecidableEq, Repr

/-- The values of these constants on Linux with glibc. -/
def linux : Platform := { PATH_MAX := 4096, SUN_PATH_SIZE := 108, RLIM_INFINITY := 2 ^ 64 - 1 }

/-- `strncpy(dst, src, n)`: the `n` characters stored in `dst`; the string is
cut at `n` characters and a shorter one is padded with NUL. -/
def strncpy (src : List Char) (n : Nat) : List Char :=
  (c_str src).take n ++ List.replicate (n - strlen src) NUL

/-- A character array read as a string.  An array without a NUL is read past
its end, which has no defined meaning. -/
def array_string (arr : List Char) : Option (List Char) :=
  if NUL ∈ arr then some (c_str arr) else none

/-- Type `Config` (lines 24-28): the contents of the two arrays. -/
structure Config where
  file_path : List Char
  socket_path : List Char
  deriving DecidableEq, Repr

/-! ## The accept loop and `run_server` (lines 235-284) -/

/-- What the environment does during one pass through the loop body: the
signals handled while `accept` is pending (up to the test at line 272), the
value `accept` returns and the text of `strerror(errno)` after it, the outcome
of `stat` and of `write` for a served request, and the signals handled from
then until the loop condition is next evaluated. -/
structure Iteration where
  signals_in_accept : List Int
  accept_ret : Int
  accept_error : List Char
  stat : StatResult
  write : WriteResult
  signals_after : List Int
  deriving DecidableEq, Repr

/-- The loop of `run_server` (lines 269-279).  When the script of the
environment is used up while the flag is set, `accept` never returns; when
`handle_request` ends the process, so does the loop. -/
def accept_loop (server_fd : Int) (file_path : List Char) (g : Globals) :
    List Iteration → List Effect × Outcome Globals
  | [] => if g.is_running ≠ 0 then ([], .blocked) else ([], .returns g)
  | it :: rest =>
    if g.is_running ≠ 0 then
      let g1 := deliver it.signals_in_accept g
      let r := accept_loop server_fd file_path (deliver it.signals_after g1) rest
      if it.accept_ret = -1 then
        let log :=
          if g1.is_running ≠ 0 then
            [Effect.syslog .LOG_ERR ("Failed to accept connection: ".toList ++ fmt_s it.accept_error)]
          else []
        (Effect.accept server_fd it.accept_ret :: (log ++ r.1), r.2)
      else
        andThen
          (Effect.accept server_fd it.accept_ret ::
            (handle_request it.accept_ret file_path it.stat it.write).1,
           (handle_request it.accept_ret file_path it.stat it.write).2)
          (fun _ => r)
    else ([], .returns g)

/-- The environment of `run_server`: the values returned by `socket`, `bind`
and `listen` with the error texts, the signals handled before the loop
condition is first evaluated, and the script of the loop. -/
structure ServerEnv where
  socket_ret : Int
  socket_error : List Char
  bind_ret : Int
  bind_error : List Char
  listen_ret : Int
  listen_error : List Char
  startup_signals : List Int
  script : List Iteration
  deriving DecidableEq, Repr

/-- The address `run_server` hands to `bind`: `sun_path` is zeroed and then
filled by `strncpy` with at most `sizeof(sun_path) - 1` characters. -/
def sun_path_of (P : Platform) (socket_path : List Char) : List Char :=
  c_str (strncpy socket_path (P.SUN_PATH_SIZE - 1) ++ [NUL])

/-- The part of `run_server` from `socket` on, with both configured paths read
as strings. -/
def run_server_paths (P : Platform) (env : ServerEnv) (g : Globals)
    (socket_path : List Char) (file_path : Option (List Char)) :
    List Effect × Outcome Globals :=
  let server_fd := env.socket_ret
  if server_fd = -1 then
    ([.unlink socket_path, .socket env.socket_ret,
      .syslog .LOG_ERR ("Failed to create socket: ".toList ++ fmt_s env.socket_error)],
     .exits EXIT_FAILURE)
  else if env.bind_ret = -1 then
    ([.unlink socket_path, .socket env.socket_ret,
      .bind server_fd (sun_path_of P socket_path) env.bind_ret,
      .syslog .LOG_ERR ("Failed to bind socket: ".toList ++ fmt_s env.bind_error)],
     .exits EXIT_FAILURE)
  else if env.listen_ret = -1 then
    ([.unlink socket_path, .socket env.socket_ret,
      .bind server_fd (sun_path_of P socket_path) env.bind_ret,
      .listen server_fd 5 env.listen_ret,
      .syslog .LOG_ERR ("Failed to listen on socket: ".toList ++ fmt_s env.listen_error)],
     .exits EXIT_FAILURE)
  else
    let setup : List Effect :=
      [.unlink socket_path, .socket env.socket_ret,
       .bind server_fd (sun_path_of P socket_path) env.bind_ret,
       .listen server_fd 5 env.listen_ret,
       .chmod socket_path 0o666]
    match file_path with
    | none => (setup, .undefined)
    | some fp =>
      let started : List Effect :=
        [.syslog .LOG_INFO ("Server started, monitoring file: ".toList ++ fp),
         .syslog .LOG_INFO ("Listening on socket: ".toList ++ socket_path)]
      andThen
        (andThen (setup ++ started, Outcome.returns ())
          (fun _ => accept_loop server_fd fp (deliver env.startup_signals g) env.script))
        (fun g1 =>
          ([.close server_fd, .unlink socket_path,
            .syslog .LOG_INFO "Server stopped".toList], .returns g1))

/-- Function `run_server`. -/
def run_server (P : Platform) (env : ServerEnv) (g : Globals) (config : Config) :
    List Effect × Outcome Globals :=
  match array_string config.socket_path with
  | none => ([], .undefined)
  | some sp => run_server_paths P env g sp (array_string config.file_path)

/-! ## `read_config` (lines 172-209) -/

/-- Return value `CFG_SUCCESS` of `cfg_parse`. -/
def CFG_SUCCESS : Int := 0

/-- Return value `CFG_FILE_ERROR` of `cfg_parse`. -/
def CFG_FILE_ERROR : Int := -1

/-- Return value `CFG_PARSE_ERROR` of `cfg_parse`. -/
def CFG_PARSE_ERROR : Int := 1

/-- One call of the library function `cfg_parse`: the value it returns and,
for each of the two options declared with `CFG_SIMPLE_STR`, the string it
stored through the option's pointer (`none` when the file gave the key no
value, in which case the library leaves the pointer as it was). -/
structure ParseCall where
  ret : Int
  file_path : Option (List Char)
  socket_path : Option (List Char)
  deriving DecidableEq, Repr

/-- The effect of one `cfg_parse` call on the two `static` pointers. -/
def cfg_parse_store (call : ParseCall) (g : Globals) : Globals :=
  { g with
    file_path := call.file_path.orElse (fun _ => g.file_path),
    socket_path := call.socket_path.orElse (fun _ => g.socket_path) }

/-- Function `read_config`.  The file is parsed twice (lines 183-184); only
the second return value is tested. -/
def read_config (P : Platform) (config_path : List Char) (call1 call2 : ParseCall)
    (g : Globals) : List Effect × Outcome (Config × Globals) :=
  let g2 := cfg_parse_store call2 (cfg_parse_store call1 g)
  let parsed : List Effect :=
    [.cfg_parse config_path call1.ret, .cfg_parse config_path call2.ret]
  if call2.ret = CFG_PARSE_ERROR then
    (parsed ++ [.cfg_free,
      .syslog .LOG_ERR ("Failed to parse config file ".toList ++ fmt_s config_path)],
     .exits EXIT_FAILURE)
  else
    match g2.file_path with
    | none => (parsed, .undefined)
    | some fp =>
      if strlen fp = 0 then
        (parsed ++ [.syslog .LOG_ERR "Error: file_path not specified in config".toList,
          .cfg_free], .exits EXIT_FAILURE)
      else
        match g2.socket_path with
        | none => (parsed, .undefined)
        | some sp =>
          if strlen sp = 0 then
            (parsed ++ [.syslog .LOG_ERR "Error: socket_path not specified in config".toList,
              .cfg_free], .exits EXIT_FAILURE)
          else
            (parsed ++ [.cfg_free],
             .returns ({ file_path := strncpy fp P.PATH_MAX,
                         socket_path := strncpy sp P.PATH_MAX }, g2))

/-! ## `daemonize` (lines 119-170) -/

/-- The values the calls of `daemonize` return; `rlim_max` is the content of
`rl.rlim_max` when line 159 reads it. -/
structure DaemonEnv where
  getrlimit_ret : Int
  rlim_max : Nat
  fork1 : Int
  sigaction_ret : Int
  fork2 : Int
  chdir_ret : Int
  fd0 : Int
  fd1 : Int
  fd2 : Int
  deriving DecidableEq, Repr

/-- The last part of `daemonize`, from `chdir` on (lines 155-169). -/
def daemonize_detach (P : Platform) (env : DaemonEnv) : List Effect :=
  let rlim_max := if env.rlim_max = P.RLIM_INFINITY then 1024 else env.rlim_max
  [Effect.chdir "/".toList env.chdir_ret]
  ++ (if env.chdir_ret < 0 then
        [Effect.syslog .LOG_CRIT "невозможно сделать текущим рабочим каталогом /".toList]
      else [])
  ++ (List.range rlim_max).map (fun i => Effect.close (Int.ofNat i))
  ++ [Effect.open_rdwr "/dev/null".toList env.fd0, Effect.dup 0 env.fd1, Effect.dup 0 env.fd2]
  ++ (if env.fd0 ≠ 0 ∨ env.fd1 ≠ 1 ∨ env.fd2 ≠ 2 then
        [Effect.syslog .LOG_CRIT
          ("ошибочные файловые дескрипторы ".toList ++ fmt_ld env.fd0 ++ " ".toList
            ++ fmt_ld env.fd1 ++ " ".toList ++ fmt_ld env.fd2)]
      else [])

/-- The middle part of `daemonize`, from `setsid` on (lines 137-169). -/
def daemonize_session (P : Platform) (env : DaemonEnv) : List Effect × Outcome Unit :=
  let head : List Effect :=
    [Effect.setsid, Effect.sigaction_ignore SIGHUP env.sigaction_ret]
    ++ (if env.sigaction_ret < 0 then
          [Effect.syslog .LOG_CRIT "невозможно игнорировать сигнал SIGHUP".toList]
        else [])
    ++ [Effect.fork env.fork2]
  if env.fork2 < 0 then
    (head ++ [Effect.syslog .LOG_CRIT "ошибка вызова функции fork".toList]
      ++ daemonize_detach P env, .returns ())
  else if env.fork2 ≠ 0 then (head, .exits EXIT_SUCCESS)
  else (head ++ daemonize_detach P env, .returns ())

/-- Function `daemonize`, followed in the process that goes on to serve. -/
def daemonize (P : Platform) (env : DaemonEnv) : List Effect × Outcome Unit :=
  let head : List Effect :=
    [Effect.umask 0, Effect.getrlimit env.getrlimit_ret]
    ++ (if env.getrlimit_ret < 0 then
          [Effect.perror "невозможно получить максимальный номер дескриптора".toList]
        else [])
    ++ [Effect.fork env.fork1]
  if env.fork1 < 0 then
    andThen (head ++ [Effect.perror "ошибка вызова функции fork".toList], Outcome.returns ())
      (fun _ => daemonize_session P env)
  else if env.fork1 ≠ 0 then (head, .exits EXIT_SUCCESS)
  else andThen (head, Outcome.returns ()) (fun _ => daemonize_session P env)

/-! ## Command line: `getopt` and `print_usage` -/

/-- A value returned by `getopt(argc, argv, "c:dh")` before it returns -1:
option `c` with `optarg`, option `d`, option `h`, or the question mark for
the offending option character `c`. -/
inductive OptRet where
  | opt_c (optarg : List Char)
  | opt_d
  | opt_h
  | bad (c : Char)
  deriving DecidableEq, Repr

/-- The option characters of one argument (the text after its leading dash)
as `getopt` reads them with the option string `"c:dh"`.  The second component
tells that the argument ends in `c`, whose value is then the next argument. -/
def scan_cluster : List Char → List OptRet × Bool
  | [] => ([], false)
  | ch :: cs =>
    if ch = 'c' then
      if cs = [] then ([], true) else ([.opt_c cs], false)
    else
      let r := scan_cluster cs
      ((if ch = 'd' then OptRet.opt_d else if ch = 'h' then OptRet.opt_h else OptRet.bad ch)
        :: r.1, r.2)

/-- The successive values `getopt` returns for the arguments after the
program name, in its default mode (arguments that are not options are passed
over, `--` ends the options). -/
def getopt_scan : List (List Char) → List OptRet
  | [] => []
  | [a] =>
    if a = "--".toList then []
    else
      match a with
      | '-' :: ch :: cs =>
        let r := scan_cluster (ch :: cs)
        if r.2 then r.1 ++ [.bad 'c'] else r.1
      | _ => []
  | a :: b :: rest =>
    if a = "--".toList then []
    else
      match a with
      | '-' :: ch :: cs =>
        let r := scan_cluster (ch :: cs)
        if r.2 then r.1 ++ .opt_c b :: getopt_scan rest
        else r.1 ++ getopt_scan (b :: rest)
      | _ => getopt_scan (b :: rest)

/-- The text of the usage line. -/
def usage_text (prog_name : List Char) : List Char :=
  "Usage: ".toList ++ fmt_s prog_name ++ " -c config_file [-d]".toList ++ [NL]

/-- Function `print_usage` (lines 107-118). -/
def print_usage {α : Type} (exit_code : Int) (prog_name : List Char) :
    List Effect × Outcome α :=
  if exit_code ≠ 0 then ([.print_stderr (usage_text prog_name)], .exits exit_code)
  else ([.print_stdout (usage_text prog_name)], .exits exit_code)

/-- The option loop of `main` (lines 53-69) over the values `getopt` returns;
the state is `config_path` and `is_daemonize`. -/
def option_loop (prog_name : List Char) (config_path : List Char) (is_daemonize : Int) :
    List OptRet → List Effect × Outcome (List Char × Int)
  | [] => ([], .returns (config_path, is_daemonize))
  | .opt_c optarg :: rest => option_loop prog_name optarg is_daemonize rest
  | .opt_d :: rest => option_loop prog_name config_path 1 rest
  | .opt_h :: _ => print_usage EXIT_SUCCESS prog_name
  | .bad c :: _ =>
    andThen ([Effect.getopt_diag c], Outcome.returns ())
      (fun _ => print_usage EXIT_FAILURE prog_name)

/-! ## `main` (lines 40-105) -/

/-- Macro `DEFAULT_CONFIG_FILE` (line 20). -/
def DEFAULT_CONFIG_FILE : List Char := "my_daemon.conf".toList

/-- Everything the environment contributes to one run of the program. -/
structure MainEnv where
  access_F_ret : Int
  access_F_error : List Char
  access_R_ret : Int
  access_R_error : List Char
  parse1 : ParseCall
  parse2 : ParseCall
  daemon : DaemonEnv
  server : ServerEnv
  deriving DecidableEq, Repr

/-- The part of `main` after the options are read (lines 71-104). -/
def main_startup (P : Platform) (env : MainEnv) (config_path : List Char)
    (is_daemonize : Int) : List Effect × Outcome Int :=
  if env.access_F_ret = -1 then
    ([.access_F_OK config_path,
      .print_stderr ("Config file ".toList ++ fmt_s config_path ++ " does not exist: ".toList
        ++ fmt_s env.access_F_error ++ [NL])], .exits EXIT_FAILURE)
  else if env.access_R_ret = -1 then
    ([.access_F_OK config_path, .access_R_OK config_path,
      .print_stderr ("Config file ".toList ++ fmt_s config_path ++ " is not readable: ".toList
        ++ fmt_s env.access_R_error ++ [NL])], .exits EXIT_FAILURE)
  else
    andThen
      (andThen ([Effect.access_F_OK config_path, Effect.access_R_OK config_path, Effect.openlog],
          Outcome.returns ())
        (fun _ => read_config P config_path env.parse1 env.parse2 Globals.initial))
      (fun cg =>
        andThen
          (andThen ([Effect.signal SIGTERM, Effect.signal SIGINT], Outcome.returns ())
            (fun _ => if is_daemonize ≠ 0 then daemonize P env.daemon else ([], .returns ())))
          (fun _ =>
            andThen (run_server P env.server cg.2 cg.1)
              (fun _ => ([Effect.closelog], .returns EXIT_SUCCESS))))

/-- Function `main`: `prog_name` is `argv[0]`, `args` the arguments after it. -/
def main (P : Platform) (env : MainEnv) (prog_name : List Char) (args : List (List Char)) :
    List Effect × Outcome Int :=
  let argc : Int := args.length + 1
  if argc < 2 ∨ argc > 4 then print_usage EXIT_FAILURE prog_name
  else
    andThen (option_loop prog_name DEFAULT_CONFIG_FILE 0 (getopt_scan args))
      (fun st => main_startup P env st.1 st.2)

/-! ## Observations on traces -/

/-- The write requests of a trace: descriptor and bytes handed to `write`. -/
def writes_of (t : List Effect) : List (Int × List Char) :=
  t.filterMap (fun e => match e with
    | .write fd buf _ => some (fd, buf)
    | _ => none)

/-- The descriptors closed in a trace, in order. -/
def closes_of (t : List Effect) : List Int :=
  t.filterMap (fun e => match e with
    | .close fd => some fd
    | _ => none)

/-- The values returned by the `accept` calls of a trace, in order. -/
def accepts_of (t : List Effect) : List Int :=
  t.filterMap (fun e => match e with
    | .accept _ ret => some ret
    | _ => none)

/-- The paths handed to `unlink` in a trace, in order. -/
def unlinks_of (t : List Effect) : List (List Char) :=
  t.filterMap (fun e => match e with
    | .unlink path => some path
    | _ => none)

/-- The entries sent to the system log in a trace, in order. -/
def logs_of (t : List Effect) : List (Severity × List Char) :=
  t.filterMap (fun e => match e with
    | .syslog sev msg => some (sev, msg)
    | _ => none)

/-- The descriptor an effect operates on, for the calls that take one. -/
def descriptor_of : Effect → Option Int
  | .write fd _ _ => some fd
  | .close fd => some fd
  | .bind fd _ _ => some fd
  | .listen fd _ _ => some fd
  | .accept fd _ => some fd
  | .dup fd _ => some fd
  | _ => none

/-- The bytes a peer receives from a write request that returned `ret`:
nothing when the call failed, otherwise the first `ret` bytes. -/
def delivered (buf : List Char) (ret : Int) : List Char :=
  if ret < 0 then [] else buf.take ret.toNat

/-- The decimal representation of a natural number, most significant digit
first: the digit zero for 0, otherwise the base-ten digits without a leading
zero. -/
def decimal (n : Nat) : List Char :=
  if n = 0 then ['0'] else ((Nat.digits 10 n).reverse).map Nat.digitChar

/-- The number of `stat` calls in a trace; `handle_request` makes one per
invocation and nothing else in the program makes any. -/
def stat_count (t : List Effect) : Nat :=
  (t.filter (fun e => match e with
    | .stat _ => true
    | _ => false)).length

/-- A loop trace is sequential when every `accept` that returned a connection
is followed at once by the four effects of one `handle_request` call on that
connection (`stat`, a log entry, `write`, `close`), every `accept` that failed
is followed by at most one log entry, and the next effect after that is the
next `accept` or the end of the trace. -/
def sequential : List Effect → Bool
  | [] => true
  | .accept _ ret :: .stat _ :: .syslog _ _ :: .write fd _ _ :: .close fd2 :: t =>
    decide (ret ≠ -1) && decide (fd = ret) && decide (fd2 = ret) && sequential t
  | .accept _ ret :: .syslog _ _ :: t => decide (ret = -1) && sequential t
  | .accept _ ret :: t => decide (ret = -1) && sequential t
  | _ => false

/-- The addresses handed to `bind` in a trace, in order. -/
def binds_of (t : List Effect) : List (List Char) :=
  t.filterMap (fun e => match e with
    | .bind _ sun_path _ => some sun_path
    | _ => none)

/-- The paths handed to `chmod` in a trace, in order. -/
def chmods_of (t : List Effect) : List (List Char) :=
  t.filterMap (fun e => match e with
    | .chmod path _ => some path
    | _ => none)

/-- The effects `run_server` performs before the loop when `socket`, `bind`
and `listen` succeed (lines 241-266). -/
def server_setup (P : Platform) (env : ServerEnv) (socket_path file_path : List Char) :
    List Effect :=
  [.unlink socket_path, .socket env.socket_ret,
   .bind env.socket_ret (sun_path_of P socket_path) env.bind_ret,
   .listen env.socket_ret 5 env.listen_ret,
   .chmod socket_path 0o666,
   .syslog .LOG_INFO ("Server started, monitoring file: ".toList ++ file_path),
   .syslog .LOG_INFO ("Listening on socket: ".toList ++ socket_path)]

/-- The effects `run_server` performs after the loop (lines 281-283). -/
def server_cleanup (env : ServerEnv) (socket_path : List Char) : List Effect :=
  [.close env.socket_ret, .unlink socket_path, .syslog .LOG_INFO "Server stopped".toList]

/-- A command line that consists only of valid options: each argument is
`-d`, `-h`, or `-c` followed by one argument, the path. -/
def valid_options : List (List Char) → Bool
  | [] => true
  | [a] => decide (a = "-d".toList) || decide (a = "-h".toList)
  | a :: b :: rest =>
    if a = "-c".toList then valid_options rest
    else (decide (a = "-d".toList) || decide (a = "-h".toList)) && valid_options (b :: rest)

/-- A run in which the configuration file is present, readable and complete,
the socket calls succeed and `SIGTERM` arrives before the first `accept`. -/
def sample_env : MainEnv :=
  { access_F_ret := 0, access_F_error := [], access_R_ret := 0, access_R_error := [],
    parse1 := { ret := CFG_SUCCESS, file_path := some "/tmp/data".toList,
                socket_path := some "/tmp/daemon.sock".toList },
    parse2 := { ret := CFG_SUCCESS, file_path := some "/tmp/data".toList,
                socket_path := some "/tmp/daemon.sock".toList },
    daemon := { getrlimit_ret := 0, rlim_max := 4, fork1 := 0, sigaction_ret := 0, fork2 := 0,
                chdir_ret := 0, fd0 := 0, fd1 := 1, fd2 := 2 },
    server := { socket_ret := 3, socket_error := [], bind_ret := 0, bind_error := [],
                listen_ret := 0, listen_error := [], startup_signals := [SIGTERM],
                script := [] } }

/-- A socket path of 108 characters: a slash and 107 letters. -/
def long_socket_path : List Char := '/' :: List.replicate 107 'a'

/-- The run of `sample_env` with the configuration file giving
`long_socket_path` as `socket_path`. -/
def long_path_env : MainEnv :=
  { sample_env with
    parse1 := { ret := CFG_SUCCESS, file_path := some "/tmp/data".toList,
                socket_path := some long_socket_path },
    parse2 := { ret := CFG_SUCCESS, file_path := some "/tmp/data".toList,
                socket_path := some long_socket_path } }

/-- The run of `sample_env` with a configuration file that has the key
`file_path` and lacks the key `socket_path`. -/
def missing_key_env : MainEnv :=
  { sample_env with
    parse1 := { ret := CFG_SUCCESS, file_path := some "/tmp/data".toList, socket_path := none },
    parse2 := { ret := CFG_SUCCESS, file_path := some "/tmp/data".toList, socket_path := none } }

/-- The signals handled during the passes of a script, in order. -/
def signals_of : List Iteration → List Int
  | [] => []
  | it :: rest => it.signals_in_accept ++ it.signals_after ++ signals_of rest

/-- A client that connects and closes its end before the reply is written,
while the monitored file has 1234 bytes. -/
def hangup_client : Iteration :=
  { signals_in_accept := [], accept_ret := 4, accept_error := [], stat := .ok 1234,
    write := .sigpipe, signals_after := [] }

/-- A client that connects and closes its end before the reply is written,
while the monitored file does not exist. -/
def hangup_client_no_file : Iteration :=
  { signals_in_accept := [], accept_ret := 4, accept_error := [],
    stat := .fail "No such file or directory".toList, write := .sigpipe, signals_after := [] }

/-- A client that connects and reads its reply of five bytes. -/
def patient_client : Iteration :=
  { signals_in_accept := [], accept_ret := 5, accept_error := [], stat := .ok 1234,
    write := .returned 5, signals_after := [] }

/-! ## Lemmas on strings -/

theorem ite_ne_of_ne {α : Type} (p : Prop) [Decidable p] (a b x : α)
    (ha : a ≠ x) (hb : b ≠ x) : (if p then a else b) ≠ x := by
  split <;> assumption

theorem digitChar_ne_NUL (d : Nat) : Nat.digitChar d ≠ NUL := by
  unfold Nat.digitChar
  repeat (refine ite_ne_of_ne _ _ _ _ (by decide) ?_)
  decide

theorem toDigitsCore_eq_digits (f : Nat) : ∀ (n : Nat) (acc : List Char), n < f → n ≠ 0 →
    Nat.toDigitsCore 10 f n acc = ((Nat.digits 10 n).reverse).map Nat.digitChar ++ acc := by
  induction f with
  | zero => intro n acc h; omega
  | succ f ih =>
    intro n acc hlt hn
    have hpos : 0 < n := Nat.pos_of_ne_zero hn
    rw [Nat.digits_def' (by decide) hpos]
    simp only [Nat.toDigitsCore]
    by_cases hq : n / 10 = 0
    · simp [hq]
    · have hlt2 : n / 10 < f := by omega
      simp only [hq, if_false]
      rw [ih (n / 10) _ hlt2 hq]
      simp

theorem repr_eq_decimal (n : Nat) : (Nat.repr n).toList = decimal n := by
  unfold decimal
  by_cases hn : n = 0
  · subst hn; decide
  · simp only [hn, if_false, Nat.repr, Nat.toDigits, List.asString, String.toList]
    rw [toDigitsCore_eq_digits (n + 1) n [] (by omega) hn]
    simp

theorem decimal_no_NUL (n : Nat) : ∀ c ∈ decimal n, c ≠ NUL := by
  intro c hc
  unfold decimal at hc
  split at hc
  · have : c = '0' := by simpa using hc
    subst this; decide
  · obtain ⟨d, -, rfl⟩ := List.mem_map.mp hc
    exact digitChar_ne_NUL d

theorem decimal_length_le (n e : Nat) (he : 0 < e) (h : n < 10 ^ e) :
    (decimal n).length ≤ e := by
  have hlen : (Nat.repr n).length ≤ e := Nat.repr_length n e he h
  rw [← repr_eq_decimal]
  exact hlen

theorem c_str_eq_self (s : List Char) (h : ∀ c ∈ s, c ≠ NUL) : c_str s = s := by
  unfold c_str
  rw [List.takeWhile_eq_self_iff]
  intro c hc
  simpa using h c hc

theorem c_str_no_NUL (s : List Char) : ∀ c ∈ c_str s, c ≠ NUL := by
  intro c hc
  have := List.mem_takeWhile_imp hc
  simpa using this

/-- The bytes `handle_request` hands to `write` when the formatted text has
no NUL: the first `BUF_SIZE - 1` characters of it. -/
theorem written_eq_take (s : List Char) (h : ∀ c ∈ s, c ≠ NUL) :
    (snprintf BUF_SIZE s).take (strlen (snprintf BUF_SIZE s)) = s.take 1023 := by
  have h1 : ∀ c ∈ snprintf BUF_SIZE s, c ≠ NUL := by
    intro c hc
    exact h c (List.mem_of_mem_take hc)
  unfold strlen
  rw [c_str_eq_self _ h1, List.take_length]
  rfl

theorem error_line_no_NUL (e : List Char) :
    ∀ c ∈ "ERROR: ".toList ++ fmt_s e ++ [NL], c ≠ NUL := by
  intro c hc
  simp only [List.mem_append, List.mem_singleton] at hc
  rcases hc with (hc | hc) | hc
  · revert c; decide
  · exact c_str_no_NUL e c hc
  · subst hc; decide

theorem size_line_no_NUL (n : Nat) : ∀ c ∈ decimal n ++ [NL], c ≠ NUL := by
  intro c hc
  simp only [List.mem_append, List.mem_singleton] at hc
  rcases hc with hc | hc
  · exact decimal_no_NUL n c hc
  · subst hc; decide

theorem fmt_ld_nonneg (N : Int) (h0 : 0 ≤ N) : fmt_ld N = decimal N.toNat := by
  unfold fmt_ld
  rw [if_neg (by omega), repr_eq_decimal]

/-! ## `handle_request`: the response -/

/-- C1. When `stat` succeeds with a size `N`, `0 ≤ N < 2^63`, `handle_request`
issues exactly one write request, on the client descriptor, whose bytes are
the decimal representation of `N` followed by one newline, whatever the call
of `write` then does; the line has at most 20 bytes, so the 1024-byte buffer
does not cut it; a write that the system completes delivers exactly this
line. -/
theorem handle_request_size_line (client_socket : Int) (file_path : List Char) (N : Int)
    (w : WriteResult) (h0 : 0 ≤ N) (h1 : N < 2 ^ 63) :
    writes_of (handle_request client_socket file_path (.ok N) w).1
        = [(client_socket, decimal N.toNat ++ [NL])]
      ∧ (decimal N.toNat ++ [NL]).length ≤ 20
      ∧ (decimal N.toNat ++ [NL]).length < BUF_SIZE
      ∧ (∀ write_ret : Int, write_ret = ((decimal N.toNat ++ [NL]).length : Int) →
          delivered (decimal N.toNat ++ [NL]) write_ret = decimal N.toNat ++ [NL]) := by
  have hlen : (decimal N.toNat).length ≤ 19 := by
    apply decimal_length_le _ _ (by decide)
    have : N.toNat < 2 ^ 63 := by omega
    exact lt_of_lt_of_le this (by norm_num)
  have hlen2 : (decimal N.toNat ++ [NL]).length ≤ 20 := by
    simp only [List.length_append, List.length_singleton]; omega
  refine ⟨?_, hlen2, ?_, ?_⟩
  · cases w <;>
      (simp only [handle_request, writes_of, response_of, List.filterMap_cons,
        List.filterMap_nil, fmt_ld_nonneg N h0]
       rw [written_eq_take _ (size_line_no_NUL _), List.take_of_length_le (by omega)])
  · unfold BUF_SIZE; omega
  · intro write_ret hw
    unfold delivered
    rw [if_neg (by omega), hw]
    simp

/-- Witness for C1: a file of 1234 bytes. -/
theorem handle_request_size_line_witness :
    (0 : Int) ≤ 1234 ∧ (1234 : Int) < 2 ^ 63
      ∧ writes_of (handle_request 4 "/tmp/data".toList (.ok 1234) (.returned 5)).1
        = [(4, decimal (1234 : Int).toNat ++ [NL])] :=
  ⟨by decide, by decide,
   (handle_request_size_line 4 "/tmp/data".toList 1234 (.returned 5)
      (by decide) (by decide)).1⟩

/-! ## The loop: one pass -/

theorem deliver_keeps_stopped (sigs : List Int) : ∀ (g : Globals), g.is_running = 0 →
    (deliver sigs g).is_running = 0 := by
  induction sigs with
  | nil => intro g h; exact h
  | cons sig rest ih =>
    intro g h
    unfold deliver
    rw [List.foldl_cons]
    apply ih
    unfold handle_signal
    split
    · rfl
    · exact h

theorem accept_loop_stopped (server_fd : Int) (file_path : List Char) (g : Globals)
    (script : List Iteration) (h : g.is_running = 0) :
    accept_loop server_fd file_path g script = ([], .returns g) := by
  cases script <;> simp [accept_loop, h]

/-- One pass in which `accept` fails. -/
theorem accept_loop_failed (server_fd : Int) (file_path : List Char) (g : Globals)
    (it : Iteration) (rest : List Iteration) (hrun : g.is_running ≠ 0)
    (hfail : it.accept_ret = -1) :
    accept_loop server_fd file_path g (it :: rest)
      = (Effect.accept server_fd (-1)
          :: ((if (deliver it.signals_in_accept g).is_running ≠ 0 then
                [Effect.syslog .LOG_ERR
                  ("Failed to accept connection: ".toList ++ fmt_s it.accept_error)]
              else [])
            ++ (accept_loop server_fd file_path
                  (deliver it.signals_after (deliver it.signals_in_accept g)) rest).1),
         (accept_loop server_fd file_path
            (deliver it.signals_after (deliver it.signals_in_accept g)) rest).2) := by
  simp only [accept_loop, if_pos hrun, hfail, if_true]

/-- One pass in which a connection is served and `write` returns. -/
theorem accept_loop_served (server_fd : Int) (file_path : List Char) (g : Globals)
    (it : Iteration) (rest : List Iteration) (ret : Int) (hrun : g.is_running ≠ 0)
    (hok : it.accept_ret ≠ -1) (hw : it.write = .returned ret) :
    accept_loop server_fd file_path g (it :: rest)
      = (Effect.accept server_fd it.accept_ret
          :: Effect.stat file_path
          :: Effect.syslog (request_severity it.stat) (request_message file_path it.stat)
          :: Effect.write it.accept_ret
              ((response_of it.stat).take (strlen (response_of it.stat))) (.returned ret)
          :: Effect.close it.accept_ret
          :: (accept_loop server_fd file_path
                (deliver it.signals_after (deliver it.signals_in_accept g)) rest).1,
         (accept_loop server_fd file_path
            (deliver it.signals_after (deliver it.signals_in_accept g)) rest).2) := by
  simp only [accept_loop, if_pos hrun, if_neg hok, hw, handle_request, andThen,
    List.cons_append, List.nil_append]

/-- One pass in which a connection is accepted and `write` raises `SIGPIPE`. -/
theorem accept_loop_hangup (server_fd : Int) (file_path : List Char) (g : Globals)
    (it : Iteration) (rest : List Iteration) (hrun : g.is_running ≠ 0)
    (hok : it.accept_ret ≠ -1) (hw : it.write = .sigpipe) :
    accept_loop server_fd file_path g (it :: rest)
      = ([Effect.accept server_fd it.accept_ret,
          Effect.stat file_path,
          Effect.syslog (request_severity it.stat) (request_message file_path it.stat),
          Effect.write it.accept_ret
              ((response_of it.stat).take (strlen (response_of it.stat))) .sigpipe],
         .killed SIGPIPE) := by
  simp only [accept_loop, if_pos hrun, if_neg hok, hw, handle_request, andThen]

theorem accept_loop_never_exits (server_fd : Int) (file_path : List Char)
    (script : List Iteration) : ∀ (g : Globals) (status : Int),
    (accept_loop server_fd file_path g script).2 ≠ .exits status := by
  induction script with
  | nil =>
    intro g status
    unfold accept_loop
    split <;> simp
  | cons it rest ih =>
    intro g status
    by_cases hrun : g.is_running ≠ 0
    · by_cases hfail : it.accept_ret = -1
      · rw [accept_loop_failed _ _ _ _ _ hrun hfail]
        exact ih _ status
      · cases hw : it.write with
        | returned ret =>
          rw [accept_loop_served _ _ _ _ _ ret hrun hfail hw]
          exact ih _ status
        | sigpipe =>
          rw [accept_loop_hangup _ _ _ _ _ hrun hfail hw]
          simp
    · have hstop : g.is_running = 0 := by simpa using hrun
      rw [accept_loop_stopped _ _ _ _ hstop]
      simp

/-! ## `handle_request`: the error line -/

theorem handle_request_fail_writes (client_socket : Int) (file_path r : List Char)
    (w : WriteResult) (hr : ∀ c ∈ r, c ≠ NUL) :
    writes_of (handle_request client_socket file_path (.fail r) w).1
      = [(client_socket, ("ERROR: ".toList ++ r ++ [NL]).take (BUF_SIZE - 1))] := by
  cases w <;>
    (simp only [handle_request, writes_of, response_of, List.filterMap_cons,
      List.filterMap_nil]
     rw [written_eq_take _ (error_line_no_NUL _)]
     simp only [fmt_s, c_str_eq_self r hr]
     rfl)

/-- The bytes handed to `write` after a failed `stat` whose reason text has at
most 1015 bytes (every message of the C library is far shorter): the line
`"ERROR: " ++ r ++ "\n"`, whatever the call of `write` then does; and the only
log entry has warning severity. -/
theorem error_line_written (client_socket : Int) (file_path r : List Char)
    (w : WriteResult) (hr : ∀ c ∈ r, c ≠ NUL) (hlen : r.length ≤ 1015) :
    writes_of (handle_request client_socket file_path (.fail r) w).1
        = [(client_socket, "ERROR: ".toList ++ r ++ [NL])]
      ∧ (∃ msg, logs_of (handle_request client_socket file_path (.fail r) w).1
            = [(Severity.LOG_WARNING, msg)]) := by
  refine ⟨?_, ?_⟩
  · rw [handle_request_fail_writes client_socket file_path r w hr, List.take_of_length_le]
    simp only [List.length_append, List.length_singleton, BUF_SIZE]
    have : "ERROR: ".toList.length = 7 := rfl
    omega
  · cases w <;> exact ⟨_, rfl⟩

/-- After a failed `stat`, when `write` returns (with any value), the handler
returns and the loop goes on with the rest of the script. -/
theorem stat_failure_loop_goes_on (server_fd : Int) (file_path r : List Char) (g : Globals)
    (it : Iteration) (rest : List Iteration) (ret : Int) (hrun : g.is_running ≠ 0)
    (hok : it.accept_ret ≠ -1) (hstat : it.stat = .fail r) (hw : it.write = .returned ret) :
    (handle_request it.accept_ret file_path (.fail r) (.returned ret)).2 = .returns ()
      ∧ (accept_loop server_fd file_path g (it :: rest)).2
        = (accept_loop server_fd file_path
            (deliver it.signals_after (deliver it.signals_in_accept g)) rest).2 := by
  refine ⟨rfl, ?_⟩
  rw [accept_loop_served _ _ _ _ _ ret hrun hok hw]

/-- C2, at the failing input.  The monitored file is missing (`stat` fails,
reason text "No such file or directory") and the client has closed its end
before the reply is written.  `handle_request` logs at warning severity and
hands the line `"ERROR: No such file or directory\n"` to `write`; but `write`
raises `SIGPIPE`, the process is terminated there, the handler does not
return to the loop, and the next client is never accepted. -/
theorem stat_failure_hangup_kills :
    handle_request 4 "/tmp/data".toList (.fail "No such file or directory".toList) .sigpipe
        = ([Effect.stat "/tmp/data".toList,
            Effect.syslog .LOG_WARNING
              "Failed to get file size for /tmp/data: No such file or directory".toList,
            Effect.write 4 ("ERROR: No such file or directory".toList ++ [NL]) .sigpipe],
           .killed SIGPIPE)
      ∧ accept_loop 3 "/tmp/data".toList Globals.initial
          [hangup_client_no_file, patient_client]
        = ([Effect.accept 3 4,
            Effect.stat "/tmp/data".toList,
            Effect.syslog .LOG_WARNING
              "Failed to get file size for /tmp/data: No such file or directory".toList,
            Effect.write 4 ("ERROR: No such file or directory".toList ++ [NL]) .sigpipe],
           .killed SIGPIPE) := by
  constructor <;> decide

/-! ## `handle_request`: write and close -/

/-- When `write` returns, with any value, the effects of `handle_request`
that operate on a descriptor are one write request followed by one close,
both on the client descriptor, the close is the last effect, and the function
returns. -/
theorem handle_request_returned (client_socket : Int) (file_path : List Char)
    (st : StatResult) (ret : Int) :
    (handle_request client_socket file_path st (.returned ret)).1.filter
          (fun e => (descriptor_of e).isSome)
        = [Effect.write client_socket ((response_of st).take (strlen (response_of st)))
            (.returned ret), Effect.close client_socket]
      ∧ (handle_request client_socket file_path st (.returned ret)).1.getLast?
        = some (Effect.close client_socket)
      ∧ closes_of (handle_request client_socket file_path st (.returned ret)).1
        = [client_socket]
      ∧ (handle_request client_socket file_path st (.returned ret)).2 = .returns () := by
  refine ⟨?_, ?_, ?_, rfl⟩
  · simp [handle_request, descriptor_of]
  · simp [handle_request]
  · simp [handle_request, closes_of]

/-- C3, at the failing input.  The client has closed its end before the reply
is written, so `write` raises `SIGPIPE`: the effects of `handle_request` end
with the write request, the process is terminated there, and no `close` of
the connection follows. -/
theorem hangup_skips_close :
    handle_request 4 "/tmp/data".toList (.ok 1234) .sigpipe
        = ([Effect.stat "/tmp/data".toList,
            Effect.syslog .LOG_DEBUG "Sent file size 1234 for /tmp/data".toList,
            Effect.write 4 ("1234".toList ++ [NL]) .sigpipe],
           .killed SIGPIPE)
      ∧ closes_of (handle_request 4 "/tmp/data".toList (.ok 1234) .sigpipe).1 = []
      ∧ (handle_request 4 "/tmp/data".toList (.ok 1234) .sigpipe).1.getLast?
        = some (Effect.write 4 ("1234".toList ++ [NL]) .sigpipe) := by
  refine ⟨?_, ?_, ?_⟩ <;> decide

/-! ## The accept loop -/

theorem deliver_nil (g : Globals) : deliver [] g = g := rfl

theorem deliver_append (a b : List Int) (g : Globals) :
    deliver (a ++ b) g = deliver b (deliver a g) := by
  unfold deliver
  rw [List.foldl_append]

/-- What holds of every loop trace: the accept outcomes seen are an initial
part of the script, every accepted connection gets one `stat` and one write
request, in order; and when no `write` raises `SIGPIPE`, every accepted
connection is closed, in order, and the trace is sequential. -/
theorem accept_loop_trace (server_fd : Int) (file_path : List Char)
    (script : List Iteration) : ∀ (g : Globals),
    (∃ n, n ≤ script.length ∧
        accepts_of (accept_loop server_fd file_path g script).1
          = (script.take n).map (fun it => it.accept_ret))
      ∧ (writes_of (accept_loop server_fd file_path g script).1).map Prod.fst
          = (accepts_of (accept_loop server_fd file_path g script).1).filter (fun c => c ≠ -1)
      ∧ stat_count (accept_loop server_fd file_path g script).1
          = ((accepts_of (accept_loop server_fd file_path g script).1).filter
              (fun c => c ≠ -1)).length
      ∧ ((∀ it ∈ script, it.write ≠ .sigpipe) →
          closes_of (accept_loop server_fd file_path g script).1
              = (accepts_of (accept_loop server_fd file_path g script).1).filter
                  (fun c => c ≠ -1)
            ∧ sequential (accept_loop server_fd file_path g script).1 = true) := by
  induction script with
  | nil =>
    intro g
    refine ⟨⟨0, le_refl _, ?_⟩, ?_, ?_, fun _ => ⟨?_, ?_⟩⟩ <;>
      (unfold accept_loop; split <;> rfl)
  | cons it rest ih =>
    intro g
    by_cases hrun : g.is_running ≠ 0
    · obtain ⟨⟨n, hn, hacc⟩, hwr, hst, hrest⟩ :=
        ih (deliver it.signals_after (deliver it.signals_in_accept g))
      by_cases hfail : it.accept_ret = -1
      · rw [accept_loop_failed _ _ _ _ _ hrun hfail]
        by_cases hflag : (deliver it.signals_in_accept g).is_running ≠ 0
        · refine ⟨⟨n + 1, by simpa using hn, ?_⟩, ?_, ?_, ?_⟩
          · simp [hflag, hfail, accepts_of] at hacc ⊢
            exact hacc
          · simpa [hflag, accepts_of, writes_of] using hwr
          · simpa [hflag, accepts_of, stat_count] using hst
          · intro hw
            obtain ⟨hcl, hseq⟩ := hrest (fun it2 h2 => hw it2 (List.mem_cons_of_mem _ h2))
            refine ⟨?_, ?_⟩
            · simpa [hflag, accepts_of, closes_of] using hcl
            · simpa [hflag, sequential] using hseq
        · have hstop : (deliver it.signals_in_accept g).is_running = 0 := by
            simpa using hflag
          have hnext := accept_loop_stopped server_fd file_path _ rest
            (deliver_keeps_stopped it.signals_after _ hstop)
          refine ⟨⟨1, by simp, ?_⟩, ?_, ?_, fun _ => ⟨?_, ?_⟩⟩ <;>
            simp [hfail, hstop, hnext, accepts_of, writes_of, closes_of, stat_count,
              sequential]
      · cases hwrite : it.write with
        | returned ret =>
          rw [accept_loop_served _ _ _ _ _ ret hrun hfail hwrite]
          refine ⟨⟨n + 1, by simpa using hn, ?_⟩, ?_, ?_, ?_⟩
          · simp [accepts_of] at hacc ⊢
            exact hacc
          · simp [hfail, accepts_of, writes_of] at hwr ⊢
            exact hwr
          · simp [hfail, accepts_of, stat_count] at hst ⊢
            exact hst
          · intro hw
            obtain ⟨hcl, hseq⟩ := hrest (fun it2 h2 => hw it2 (List.mem_cons_of_mem _ h2))
            refine ⟨?_, ?_⟩
            · simp [hfail, accepts_of, closes_of] at hcl ⊢
              exact hcl
            · simp only [sequential, ne_eq, hfail, not_false_eq_true, decide_True,
                Bool.true_and, Bool.and_self]
              exact hseq
        | sigpipe =>
          rw [accept_loop_hangup _ _ _ _ _ hrun hfail hwrite]
          refine ⟨⟨1, by simp, ?_⟩, ?_, ?_, ?_⟩
          · simp [accepts_of]
          · simp [hfail, accepts_of, writes_of]
          · simp [hfail, accepts_of, stat_count]
          · intro hw
            exact absurd hwrite (hw it (List.mem_cons_self _ _))
    · have hstop : g.is_running = 0 := by simpa using hrun
      rw [accept_loop_stopped server_fd file_path g _ hstop]
      exact ⟨⟨0, by simp, rfl⟩, rfl, rfl, fun _ => ⟨rfl, rfl⟩⟩

theorem accept_loop_returns_stopped (server_fd : Int) (file_path : List Char)
    (script : List Iteration) : ∀ (g g1 : Globals),
    (accept_loop server_fd file_path g script).2 = .returns g1 → g1.is_running = 0 := by
  induction script with
  | nil =>
    intro g g1 h
    unfold accept_loop at h
    split at h
    · simp at h
    · rename_i hstop
      have hg : g1 = g := by simpa using h.symm
      rw [hg]
      simpa using hstop
  | cons it rest ih =>
    intro g g1 h
    by_cases hrun : g.is_running ≠ 0
    · by_cases hfail : it.accept_ret = -1
      · rw [accept_loop_failed _ _ _ _ _ hrun hfail] at h
        exact ih _ _ h
      · cases hw : it.write with
        | returned ret =>
          rw [accept_loop_served _ _ _ _ _ ret hrun hfail hw] at h
          exact ih _ _ h
        | sigpipe =>
          rw [accept_loop_hangup _ _ _ _ _ hrun hfail hw] at h
          simp at h
    · have hstop : g.is_running = 0 := by simpa using hrun
      rw [accept_loop_stopped server_fd file_path g _ hstop] at h
      have hg : g1 = g := by simpa using h.symm
      rw [hg]
      exact hstop

/-- C4, at the failing input.  Two clients are waiting; the first has closed
its end before the reply is written.  The loop accepts the first connection
and invokes `handle_request` on it, `write` raises `SIGPIPE` and the process
is terminated: the accepted connection is left without a `close`, and the
second client is never accepted or answered. -/
theorem hangup_ends_loop :
    accept_loop 3 "/tmp/data".toList Globals.initial [hangup_client, patient_client]
        = ([Effect.accept 3 4,
            Effect.stat "/tmp/data".toList,
            Effect.syslog .LOG_DEBUG "Sent file size 1234 for /tmp/data".toList,
            Effect.write 4 ("1234".toList ++ [NL]) .sigpipe],
           .killed SIGPIPE)
      ∧ accepts_of (accept_loop 3 "/tmp/data".toList Globals.initial
          [hangup_client, patient_client]).1 = [4]
      ∧ closes_of (accept_loop 3 "/tmp/data".toList Globals.initial
          [hangup_client, patient_client]).1 = [] := by
  refine ⟨?_, ?_, ?_⟩ <;> decide

/-! ## Failed `accept` -/

/-- C9, as amended.  Let `accept` fail in a pass that started with the flag
set.  If the flag is set at the test after the failure, one entry of error
severity is logged, `handle_request` is not invoked, and control goes back to
the loop condition: with the flag cleared by a signal in between, the loop
returns without a further `accept`; with the flag still set, the next `accept`
is issued (and never returns when the script is used up).  If the flag is
clear at the test after the failure, nothing is logged, no further `accept` is
issued and the loop returns to the shutdown code.  In no case does the loop
end the process. -/
theorem accept_failure_handling (server_fd : Int) (file_path : List Char) (g : Globals)
    (it : Iteration) (rest : List Iteration) (hrun : g.is_running ≠ 0)
    (hfail : it.accept_ret = -1) :
    ((deliver it.signals_in_accept g).is_running ≠ 0 →
        accept_loop server_fd file_path g (it :: rest)
          = (Effect.accept server_fd (-1)
              :: Effect.syslog .LOG_ERR
                  ("Failed to accept connection: ".toList ++ fmt_s it.accept_error)
              :: (accept_loop server_fd file_path
                    (deliver it.signals_after (deliver it.signals_in_accept g)) rest).1,
             (accept_loop server_fd file_path
                (deliver it.signals_after (deliver it.signals_in_accept g)) rest).2)
          ∧ ((deliver it.signals_after (deliver it.signals_in_accept g)).is_running = 0 →
              accept_loop server_fd file_path
                  (deliver it.signals_after (deliver it.signals_in_accept g)) rest
                = ([], .returns (deliver it.signals_after (deliver it.signals_in_accept g))))
          ∧ ((deliver it.signals_after (deliver it.signals_in_accept g)).is_running ≠ 0 →
              (rest = [] →
                accept_loop server_fd file_path
                    (deliver it.signals_after (deliver it.signals_in_accept g)) rest
                  = ([], .blocked))
              ∧ (∀ it2 rest2, rest = it2 :: rest2 →
                  (accept_loop server_fd file_path
                      (deliver it.signals_after (deliver it.signals_in_accept g)) rest).1.head?
                    = some (Effect.accept server_fd it2.accept_ret))))
      ∧ ((deliver it.signals_in_accept g).is_running = 0 →
          accept_loop server_fd file_path g (it :: rest)
            = ([Effect.accept server_fd (-1)],
               .returns (deliver it.signals_after (deliver it.signals_in_accept g))))
      ∧ (∀ status, (accept_loop server_fd file_path g (it :: rest)).2 ≠ .exits status) := by
  refine ⟨?_, ?_, ?_⟩
  · intro hflag
    refine ⟨?_, ?_, ?_⟩
    · rw [accept_loop_failed _ _ _ _ _ hrun hfail, if_pos hflag]
      rfl
    · intro hstop
      exact accept_loop_stopped _ _ _ _ hstop
    · intro hgo
      refine ⟨?_, ?_⟩
      · intro hnil
        subst hnil
        simp [accept_loop, hgo]
      · intro it2 rest2 hcons
        subst hcons
        by_cases h2 : it2.accept_ret = -1
        · rw [accept_loop_failed _ _ _ _ _ hgo h2, h2]
          rfl
        · cases hw : it2.write with
          | returned ret =>
            rw [accept_loop_served _ _ _ _ _ ret hgo h2 hw]
            rfl
          | sigpipe =>
            rw [accept_loop_hangup _ _ _ _ _ hgo h2 hw]
            rfl
  · intro hstop
    have hnext := accept_loop_stopped server_fd file_path _ rest
      (deliver_keeps_stopped it.signals_after _ hstop)
    rw [accept_loop_failed _ _ _ _ _ hrun hfail, if_neg (by simpa using hstop), hnext]
    rfl
  · intro status
    exact accept_loop_never_exits server_fd file_path _ g status

/-- Witness for C9 as amended: one failed `accept` with the flag set and no
signal; the error entry is logged and the next `accept` is awaited. -/
theorem accept_failure_handling_witness :
    Globals.initial.is_running ≠ 0
      ∧ (-1 : Int) = -1
      ∧ (deliver [] Globals.initial).is_running ≠ 0
      ∧ accept_loop 3 "/tmp/data".toList Globals.initial
          ({ signals_in_accept := [], accept_ret := -1,
             accept_error := "Too many open files".toList, stat := .ok 0,
             write := .returned 0, signals_after := [] } :: [])
        = (Effect.accept 3 (-1)
            :: Effect.syslog .LOG_ERR
                ("Failed to accept connection: ".toList ++ fmt_s "Too many open files".toList)
            :: (accept_loop 3 "/tmp/data".toList (deliver [] (deliver [] Globals.initial)) []).1,
           (accept_loop 3 "/tmp/data".toList (deliver [] (deliver [] Globals.initial)) []).2) :=
  ⟨by decide, rfl, by decide,
   ((accept_failure_handling 3 "/tmp/data".toList Globals.initial
      { signals_in_accept := [], accept_ret := -1,
        accept_error := "Too many open files".toList, stat := .ok 0, write := .returned 0,
        signals_after := [] } [] (by decide) rfl).1 (by decide)).1⟩

/-- Counterexample to C9 as stated: `accept` fails while the flag is set, the
error entry is logged, `SIGTERM` is handled before the loop condition is
evaluated again, and the loop returns: no other `accept` is issued, although a
connection is pending in the script. -/
theorem accept_failure_then_signal :
    (deliver [] Globals.initial).is_running ≠ 0
      ∧ accept_loop 3 "/tmp/data".toList Globals.initial
          [ { signals_in_accept := [], accept_ret := -1,
              accept_error := "Too many open files".toList, stat := .ok 0,
              write := .returned 0, signals_after := [SIGTERM] },
            { signals_in_accept := [], accept_ret := 4, accept_error := [], stat := .ok 0,
              write := .returned 2, signals_after := [] } ]
        = ([Effect.accept 3 (-1),
            Effect.syslog .LOG_ERR "Failed to accept connection: Too many open files".toList],
           .returns { is_running := 0, file_path := none, socket_path := none }) := by
  refine ⟨by decide, ?_⟩
  decide

/-! ## The running flag -/

theorem cfg_parse_store_flag (call : ParseCall) (g : Globals) :
    (cfg_parse_store call g).is_running = g.is_running := rfl

theorem read_config_flag (P : Platform) (config_path : List Char) (call1 call2 : ParseCall)
    (g : Globals) (config : Config) (g1 : Globals)
    (h : (read_config P config_path call1 call2 g).2 = .returns (config, g1)) :
    g1.is_running = g.is_running := by
  unfold read_config at h
  simp only at h
  split at h
  · simp at h
  · split at h
    · simp at h
    · split at h
      · simp at h
      · split at h
        · simp at h
        · split at h
          · simp at h
          · simp only [Outcome.returns.injEq, Prod.mk.injEq] at h
            rw [← h.2]
            rfl

theorem andThen_returns {α β : Type} (r : List Effect × Outcome α)
    (k : α → List Effect × Outcome β) (b : β) (h : (andThen r k).2 = .returns b) :
    ∃ a, r.2 = .returns a ∧ (k a).2 = .returns b := by
  unfold andThen at h
  split at h
  · rename_i a ha
    exact ⟨a, ha, h⟩
  all_goals simp at h

theorem run_server_returns_stopped (P : Platform) (env : ServerEnv) (g : Globals)
    (config : Config) (g1 : Globals) (h : (run_server P env g config).2 = .returns g1) :
    g1.is_running = 0 := by
  unfold run_server at h
  split at h
  · simp at h
  · unfold run_server_paths at h
    simp only at h
    split at h
    · simp at h
    · split at h
      · simp at h
      · split at h
        · simp at h
        · split at h
          · simp at h
          · obtain ⟨g2, h2, h3⟩ := andThen_returns _ _ _ h
            obtain ⟨u, -, h4⟩ := andThen_returns _ _ _ h2
            have hstop := accept_loop_returns_stopped _ _ _ _ _ h4
            simp only [Outcome.returns.injEq] at h3
            rw [← h3]
            exact hstop

theorem handle_signal_flag_congr (sig : Int) (g1 g2 : Globals)
    (h : g1.is_running = g2.is_running) :
    (handle_signal sig g1).is_running = (handle_signal sig g2).is_running := by
  unfold handle_signal
  split
  · rfl
  · exact h

theorem deliver_flag_congr (sigs : List Int) : ∀ (g1 g2 : Globals),
    g1.is_running = g2.is_running →
    (deliver sigs g1).is_running = (deliver sigs g2).is_running := by
  induction sigs with
  | nil => intro g1 g2 h; exact h
  | cons sig rest ih =>
    intro g1 g2 h
    unfold deliver
    rw [List.foldl_cons, List.foldl_cons]
    exact ih _ _ (handle_signal_flag_congr sig g1 g2 h)

/-- Once the signals handled during the passes of `pre` have cleared the
flag, the loop makes no pass beyond `pre`: what follows in the script has no
influence on the run. -/
theorem accept_loop_after_stop (server_fd : Int) (file_path : List Char)
    (pre rest : List Iteration) : ∀ (g : Globals),
    (deliver (signals_of pre) g).is_running = 0 →
    accept_loop server_fd file_path g (pre ++ rest) = accept_loop server_fd file_path g pre := by
  induction pre with
  | nil =>
    intro g h
    have hstop : g.is_running = 0 := h
    rw [List.nil_append, accept_loop_stopped _ _ _ _ hstop, accept_loop_stopped _ _ _ _ hstop]
  | cons it pre ih =>
    intro g h
    by_cases hrun : g.is_running ≠ 0
    · have hnext : (deliver (signals_of pre)
          (deliver it.signals_after (deliver it.signals_in_accept g))).is_running = 0 := by
        rw [← deliver_append, ← deliver_append, ← List.append_assoc]
        exact h
      have hih := ih _ hnext
      rw [List.cons_append]
      by_cases hfail : it.accept_ret = -1
      · rw [accept_loop_failed _ _ _ _ _ hrun hfail, accept_loop_failed _ _ _ _ _ hrun hfail,
          hih]
      · cases hw : it.write with
        | returned ret =>
          rw [accept_loop_served _ _ _ _ _ ret hrun hfail hw,
            accept_loop_served _ _ _ _ _ ret hrun hfail hw, hih]
        | sigpipe =>
          rw [accept_loop_hangup _ _ _ _ _ hrun hfail hw,
            accept_loop_hangup _ _ _ _ _ hrun hfail hw]
    · have hstop : g.is_running = 0 := by simpa using hrun
      rw [accept_loop_stopped _ _ _ _ hstop, accept_loop_stopped _ _ _ _ hstop]

theorem run_server_after_stop (P : Platform) (env : ServerEnv) (g : Globals) (config : Config)
    (pre rest : List Iteration)
    (h : (deliver (env.startup_signals ++ signals_of pre) g).is_running = 0) :
    run_server P { env with script := pre ++ rest } g config
      = run_server P { env with script := pre } g config := by
  rw [deliver_append] at h
  have hloop := fun (fp : List Char) =>
    accept_loop_after_stop env.socket_ret fp pre rest (deliver env.startup_signals g) h
  unfold run_server
  cases array_string config.socket_path with
  | none => rfl
  | some sp =>
    cases array_string config.file_path with
    | none => rfl
    | some fp => simp only [run_server_paths, hloop fp]

theorem main_startup_after_stop (P : Platform) (env : MainEnv) (config_path : List Char)
    (is_daemonize : Int) (pre rest : List Iteration)
    (h : (deliver (env.server.startup_signals ++ signals_of pre) Globals.initial).is_running
      = 0) :
    main_startup P { env with server := { env.server with script := pre ++ rest } }
        config_path is_daemonize
      = main_startup P { env with server := { env.server with script := pre } }
        config_path is_daemonize := by
  unfold main_startup
  simp only
  by_cases haF : env.access_F_ret = -1
  · rw [if_pos haF, if_pos haF]
  · rw [if_neg haF, if_neg haF]
    by_cases haR : env.access_R_ret = -1
    · rw [if_pos haR, if_pos haR]
    · rw [if_neg haR, if_neg haR]
      cases hcfg : read_config P config_path env.parse1 env.parse2 Globals.initial with
      | mk t o =>
        cases o with
        | returns cg =>
          have hflag : cg.2.is_running = Globals.initial.is_running :=
            read_config_flag P config_path env.parse1 env.parse2 Globals.initial cg.1 cg.2
              (by rw [hcfg])
          have hsrv := run_server_after_stop P env.server cg.2 cg.1 pre rest
            (by rw [deliver_flag_congr _ _ _ hflag]; exact h)
          simp only [andThen, hsrv]
        | exits s => simp only [andThen]
        | killed s => simp only [andThen]
        | undefined => simp only [andThen]
        | blocked => simp only [andThen]

/-- C10. The flag `is_running` starts as 1.  For every signal number and every
state, `handle_signal` leaves the two other variables as they are, clears the
flag when the number is `SIGINT` or `SIGTERM`, changes nothing otherwise, and
applied twice gives the same state as applied once.  No operation sets the
flag again: a cleared flag stays cleared under any sequence of handled
signals; `cfg_parse` and `read_config` leave the flag as it is; the loop and
`run_server` return only with the flag cleared; and once the handled signals
have cleared the flag, the loop, `run_server` and `main` make no pass of the
loop beyond the passes made so far, so that what the environment offers
afterwards has no influence on the run. -/
theorem running_flag_only_cleared :
    Globals.initial.is_running = 1
      ∧ (∀ (sig : Int) (g : Globals),
          (handle_signal sig g).file_path = g.file_path
            ∧ (handle_signal sig g).socket_path = g.socket_path)
      ∧ (∀ (sig : Int) (g : Globals), sig = SIGINT ∨ sig = SIGTERM →
          (handle_signal sig g).is_running = 0)
      ∧ (∀ (sig : Int) (g : Globals), ¬ (sig = SIGINT ∨ sig = SIGTERM) →
          handle_signal sig g = g)
      ∧ (∀ (sig : Int) (g : Globals),
          handle_signal sig (handle_signal sig g) = handle_signal sig g)
      ∧ (∀ (sigs : List Int) (g : Globals), g.is_running = 0 →
          (deliver sigs g).is_running = 0)
      ∧ (∀ (call : ParseCall) (g : Globals),
          (cfg_parse_store call g).is_running = g.is_running)
      ∧ (∀ (P : Platform) (config_path : List Char) (call1 call2 : ParseCall) (g : Globals)
          (config : Config) (g1 : Globals),
          (read_config P config_path call1 call2 g).2 = .returns (config, g1) →
          g1.is_running = g.is_running)
      ∧ (∀ (server_fd : Int) (file_path : List Char) (g : Globals) (script : List Iteration)
          (g1 : Globals),
          (accept_loop server_fd file_path g script).2 = .returns g1 → g1.is_running = 0)
      ∧ (∀ (P : Platform) (env : ServerEnv) (g : Globals) (config : Config) (g1 : Globals),
          (run_server P env g config).2 = .returns g1 → g1.is_running = 0)
      ∧ (∀ (server_fd : Int) (file_path : List Char) (g : Globals)
          (pre rest : List Iteration),
          (deliver (signals_of pre) g).is_running = 0 →
          accept_loop server_fd file_path g (pre ++ rest)
            = accept_loop server_fd file_path g pre)
      ∧ (∀ (P : Platform) (env : ServerEnv) (g : Globals) (config : Config)
          (pre rest : List Iteration),
          (deliver (env.startup_signals ++ signals_of pre) g).is_running = 0 →
          run_server P { env with script := pre ++ rest } g config
            = run_server P { env with script := pre } g config)
      ∧ (∀ (P : Platform) (env : MainEnv) (prog_name : List Char) (args : List (List Char))
          (pre rest : List Iteration),
          (deliver (env.server.startup_signals ++ signals_of pre) Globals.initial).is_running
            = 0 →
          main P { env with server := { env.server with script := pre ++ rest } }
              prog_name args
            = main P { env with server := { env.server with script := pre } }
              prog_name args) := by
  refine ⟨rfl, ?_, ?_, ?_, ?_, ?_, ?_, ?_, ?_, ?_, ?_, ?_, ?_⟩
  · intro sig g
    unfold handle_signal
    split <;> exact ⟨rfl, rfl⟩
  · intro sig g h
    unfold handle_signal
    rw [if_pos h]
  · intro sig g h
    unfold handle_signal
    rw [if_neg h]
  · intro sig g
    unfold handle_signal
    split <;> rfl
  · intro sigs g h
    exact deliver_keeps_stopped sigs g h
  · intro call g
    rfl
  · intro P config_path call1 call2 g config g1 h
    exact read_config_flag P config_path call1 call2 g config g1 h
  · intro server_fd file_path g script g1 h
    exact accept_loop_returns_stopped server_fd file_path script g g1 h
  · intro P env g config g1 h
    exact run_server_returns_stopped P env g config g1 h
  · intro server_fd file_path g pre rest h
    exact accept_loop_after_stop server_fd file_path pre rest g h
  · intro P env g config pre rest h
    exact run_server_after_stop P env g config pre rest h
  · intro P env prog_name args pre rest h
    unfold main
    simp only [main_startup_after_stop P env _ _ pre rest h]

/-! ## `run_server`: the endpoint -/

theorem c_str_append_NUL (a rest : List Char) (ha : ∀ c ∈ a, c ≠ NUL) :
    c_str (a ++ NUL :: rest) = a := by
  unfold c_str
  induction a with
  | nil => simp [List.takeWhile]
  | cons x xs ih =>
    have hx : x ≠ NUL := ha x (List.mem_cons_self _ _)
    have hxs : ∀ c ∈ xs, c ≠ NUL := fun c hc => ha c (List.mem_cons_of_mem _ hc)
    simp only [List.cons_append, List.takeWhile_cons, bne_iff_ne, ne_eq, hx, not_false_eq_true,
      decide_True, if_true]
    rw [ih hxs]

theorem replicate_NUL_append (k : Nat) (rest : List Char) :
    ∃ tail, List.replicate k NUL ++ NUL :: rest = NUL :: tail := by
  cases k with
  | zero => exact ⟨rest, rfl⟩
  | succ k => exact ⟨List.replicate k NUL ++ NUL :: rest, rfl⟩

theorem sun_path_of_eq (P : Platform) (sp : List Char) (hsp : ∀ c ∈ sp, c ≠ NUL) :
    sun_path_of P sp = sp.take (P.SUN_PATH_SIZE - 1) := by
  unfold sun_path_of strncpy
  rw [c_str_eq_self sp hsp, List.append_assoc]
  obtain ⟨tail, htail⟩ := replicate_NUL_append (P.SUN_PATH_SIZE - 1 - strlen sp) []
  rw [htail]
  exact c_str_append_NUL _ _ (fun c hc => hsp c (List.mem_of_mem_take hc))

theorem sun_path_of_short (P : Platform) (sp : List Char) (hsp : ∀ c ∈ sp, c ≠ NUL)
    (hlen : sp.length < P.SUN_PATH_SIZE) : sun_path_of P sp = sp := by
  rw [sun_path_of_eq P sp hsp, List.take_of_length_le (by omega)]

theorem sun_path_of_long (P : Platform) (sp : List Char) (hsp : ∀ c ∈ sp, c ≠ NUL)
    (hpos : 0 < P.SUN_PATH_SIZE) (hlen : P.SUN_PATH_SIZE ≤ sp.length) :
    sun_path_of P sp ≠ sp := by
  rw [sun_path_of_eq P sp hsp]
  intro h
  have := congrArg List.length h
  rw [List.length_take] at this
  omega

theorem array_string_strncpy (v : List Char) (n : Nat) (hv : ∀ c ∈ v, c ≠ NUL)
    (hlen : v.length < n) : array_string (strncpy v n) = some v := by
  unfold array_string strncpy strlen
  rw [c_str_eq_self v hv, List.take_of_length_le (by omega)]
  obtain ⟨k, hk⟩ : ∃ k, n - v.length = k + 1 := ⟨n - v.length - 1, by omega⟩
  rw [hk, List.replicate_succ]
  rw [if_pos (by simp), c_str_append_NUL v _ hv]

theorem array_string_strncpy_long (v : List Char) (n : Nat) (hv : ∀ c ∈ v, c ≠ NUL)
    (hlen : n ≤ v.length) : array_string (strncpy v n) = none := by
  unfold array_string strncpy strlen
  rw [c_str_eq_self v hv]
  have h0 : n - v.length = 0 := by omega
  rw [h0]
  simp only [List.replicate_zero, List.append_nil]
  rw [if_neg]
  intro hmem
  exact hv NUL (List.mem_of_mem_take hmem) rfl

/-- The trace of `run_server` when the configured paths are strings, the
three socket calls succeed, and the loop returns. -/
theorem run_server_serving (P : Platform) (env : ServerEnv) (g : Globals) (config : Config)
    (sp fp : List Char) (g1 : Globals)
    (hsp : array_string config.socket_path = some sp)
    (hfp : array_string config.file_path = some fp)
    (hsock : env.socket_ret ≠ -1) (hbind : env.bind_ret ≠ -1) (hlisten : env.listen_ret ≠ -1)
    (hloop : (accept_loop env.socket_ret fp (deliver env.startup_signals g) env.script).2
      = .returns g1) :
    run_server P env g config
      = (server_setup P env sp fp
          ++ (accept_loop env.socket_ret fp (deliver env.startup_signals g) env.script).1
          ++ server_cleanup env sp, .returns g1) := by
  unfold run_server
  rw [hsp, hfp]
  simp only [run_server_paths, if_neg hsock, if_neg hbind, if_neg hlisten, andThen, hloop,
    server_setup, server_cleanup]
  simp

theorem accept_loop_no_unlink (server_fd : Int) (file_path : List Char)
    (script : List Iteration) : ∀ (g : Globals),
    unlinks_of (accept_loop server_fd file_path g script).1 = [] := by
  induction script with
  | nil =>
    intro g
    unfold accept_loop
    split <;> rfl
  | cons it rest ih =>
    intro g
    have hrest := ih (deliver it.signals_after (deliver it.signals_in_accept g))
    by_cases hrun : g.is_running ≠ 0
    · by_cases hfail : it.accept_ret = -1
      · rw [accept_loop_failed _ _ _ _ _ hrun hfail]
        by_cases hflag : (deliver it.signals_in_accept g).is_running ≠ 0
        · simpa [hflag, unlinks_of] using hrest
        · simpa [hflag, unlinks_of] using hrest
      · cases hw : it.write with
        | returned ret =>
          rw [accept_loop_served _ _ _ _ _ ret hrun hfail hw]
          simpa [unlinks_of] using hrest
        | sigpipe =>
          rw [accept_loop_hangup _ _ _ _ _ hrun hfail hw]
          rfl
    · have hstop : g.is_running = 0 := by simpa using hrun
      rw [accept_loop_stopped server_fd file_path g _ hstop]
      rfl

/-! ## The command line -/

theorem print_usage_failure {α : Type} (prog_name : List Char) :
    (print_usage EXIT_FAILURE prog_name : List Effect × Outcome α)
      = ([Effect.print_stderr (usage_text prog_name)], .exits EXIT_FAILURE) := by
  unfold print_usage
  rw [if_pos (by decide)]

theorem print_usage_success {α : Type} (prog_name : List Char) :
    (print_usage EXIT_SUCCESS prog_name : List Effect × Outcome α)
      = ([Effect.print_stdout (usage_text prog_name)], .exits EXIT_SUCCESS) := by
  unfold print_usage
  rw [if_neg (by decide)]

theorem option_loop_bad_first (prog_name : List Char) (c : Char) (post : List OptRet)
    (pre : List OptRet) : ∀ (config_path : List Char) (is_daemonize : Int),
    OptRet.opt_h ∉ pre → (∀ c2, OptRet.bad c2 ∉ pre) →
    option_loop prog_name config_path is_daemonize (pre ++ OptRet.bad c :: post)
      = ([Effect.getopt_diag c, Effect.print_stderr (usage_text prog_name)],
         .exits EXIT_FAILURE) := by
  induction pre with
  | nil =>
    intro config_path is_daemonize _ _
    simp [option_loop, andThen, print_usage_failure]
  | cons o pre ih =>
    intro config_path is_daemonize hh hb
    have hh2 : OptRet.opt_h ∉ pre := fun h => hh (List.mem_cons_of_mem _ h)
    have hb2 : ∀ c2, OptRet.bad c2 ∉ pre := fun c2 h => hb c2 (List.mem_cons_of_mem _ h)
    cases o with
    | opt_c optarg => simpa [option_loop] using ih optarg is_daemonize hh2 hb2
    | opt_d => simpa [option_loop] using ih config_path 1 hh2 hb2
    | opt_h => exact absurd (List.mem_cons_self _ _) hh
    | bad c2 => exact absurd (List.mem_cons_self _ _) (hb c2)

theorem option_loop_help_first (prog_name : List Char) (post : List OptRet)
    (pre : List OptRet) : ∀ (config_path : List Char) (is_daemonize : Int),
    OptRet.opt_h ∉ pre → (∀ c2, OptRet.bad c2 ∉ pre) →
    option_loop prog_name config_path is_daemonize (pre ++ OptRet.opt_h :: post)
      = ([Effect.print_stdout (usage_text prog_name)], .exits EXIT_SUCCESS) := by
  induction pre with
  | nil =>
    intro config_path is_daemonize _ _
    simp [option_loop, print_usage_success]
  | cons o pre ih =>
    intro config_path is_daemonize hh hb
    have hh2 : OptRet.opt_h ∉ pre := fun h => hh (List.mem_cons_of_mem _ h)
    have hb2 : ∀ c2, OptRet.bad c2 ∉ pre := fun c2 h => hb c2 (List.mem_cons_of_mem _ h)
    cases o with
    | opt_c optarg => simpa [option_loop] using ih optarg is_daemonize hh2 hb2
    | opt_d => simpa [option_loop] using ih config_path 1 hh2 hb2
    | opt_h => exact absurd (List.mem_cons_self _ _) hh
    | bad c2 => exact absurd (List.mem_cons_self _ _) (hb c2)

theorem option_loop_no_bad (prog_name : List Char) (opts : List OptRet) :
    ∀ (config_path : List Char) (is_daemonize : Int), (∀ c2, OptRet.bad c2 ∉ opts) →
    option_loop prog_name config_path is_daemonize opts
        = ([Effect.print_stdout (usage_text prog_name)], .exits EXIT_SUCCESS)
      ∨ ∃ cp d, option_loop prog_name config_path is_daemonize opts = ([], .returns (cp, d)) := by
  induction opts with
  | nil =>
    intro config_path is_daemonize _
    exact Or.inr ⟨config_path, is_daemonize, rfl⟩
  | cons o opts ih =>
    intro config_path is_daemonize hb
    have hb2 : ∀ c2, OptRet.bad c2 ∉ opts := fun c2 h => hb c2 (List.mem_cons_of_mem _ h)
    cases o with
    | opt_c optarg => simpa [option_loop] using ih optarg is_daemonize hb2
    | opt_d => simpa [option_loop] using ih config_path 1 hb2
    | opt_h => exact Or.inl (by simp [option_loop, print_usage_success])
    | bad c2 => exact absurd (List.mem_cons_self _ _) (hb c2)

theorem main_startup_head (P : Platform) (env : MainEnv) (config_path : List Char)
    (is_daemonize : Int) :
    (main_startup P env config_path is_daemonize).1.head?
      = some (Effect.access_F_OK config_path) := by
  unfold main_startup
  split
  · rfl
  · split
    · rfl
    · simp only [andThen]
      split <;> simp

theorem main_in_range (P : Platform) (env : MainEnv) (prog_name : List Char)
    (args : List (List Char)) (h1 : 1 ≤ args.length) (h3 : args.length ≤ 3) :
    main P env prog_name args
      = andThen (option_loop prog_name DEFAULT_CONFIG_FILE 0 (getopt_scan args))
          (fun st => main_startup P env st.1 st.2) := by
  unfold main
  simp only
  rw [if_neg]
  omega

theorem getopt_scan_d (rest : List (List Char)) :
    getopt_scan ("-d".toList :: rest) = OptRet.opt_d :: getopt_scan rest := by
  have hd : "-d".toList = ['-', 'd'] := rfl
  rw [hd]
  cases rest with
  | nil => simp [getopt_scan, scan_cluster]
  | cons b rest => simp [getopt_scan, scan_cluster]

theorem getopt_scan_h (rest : List (List Char)) :
    getopt_scan ("-h".toList :: rest) = OptRet.opt_h :: getopt_scan rest := by
  have hd : "-h".toList = ['-', 'h'] := rfl
  rw [hd]
  cases rest with
  | nil => simp [getopt_scan, scan_cluster]
  | cons b rest => simp [getopt_scan, scan_cluster]

theorem getopt_scan_c (b : List Char) (rest : List (List Char)) :
    getopt_scan ("-c".toList :: b :: rest) = OptRet.opt_c b :: getopt_scan rest := by
  have hd : "-c".toList = ['-', 'c'] := rfl
  rw [hd]
  simp [getopt_scan, scan_cluster]

theorem valid_options_no_bad (n : Nat) : ∀ (args : List (List Char)), args.length ≤ n →
    valid_options args = true → ∀ c, OptRet.bad c ∉ getopt_scan args := by
  induction n with
  | zero =>
    intro args hlen _ c
    have : args = [] := List.length_eq_zero.mp (by omega)
    subst this
    simp [getopt_scan]
  | succ n ih =>
    intro args hlen hv c
    match args, hlen, hv with
    | [], _, _ => simp [getopt_scan]
    | [a], _, hv =>
      simp only [valid_options, Bool.or_eq_true, decide_eq_true_eq] at hv
      rcases hv with rfl | rfl
      · rw [getopt_scan_d]; simp [getopt_scan]
      · rw [getopt_scan_h]; simp [getopt_scan]
    | a :: b :: rest, hlen, hv =>
      simp only [valid_options] at hv
      by_cases hc : a = "-c".toList
      · rw [if_pos hc] at hv
        subst hc
        rw [getopt_scan_c]
        have hrest := ih rest (by simp only [List.length_cons] at hlen; omega) hv c
        simpa using hrest
      · rw [if_neg hc] at hv
        simp only [Bool.and_eq_true, Bool.or_eq_true, decide_eq_true_eq] at hv
        have hrest := ih (b :: rest) (by simp only [List.length_cons] at hlen ⊢; omega) hv.2 c
        rcases hv.1 with rfl | rfl
        · rw [getopt_scan_d]; simpa using hrest
        · rw [getopt_scan_h]; simpa using hrest

/-- C8, as amended.  A command line with fewer than 1 or more than 3 arguments
makes `main` print the usage text on standard error and exit with failure, as
its only effect.  With 1 to 3 arguments: when `getopt` reports an invalid
option (or `-c` without a value) and no `-h` before it, `main` prints the
`getopt` diagnostic and the usage text on standard error and exits with
failure, with no other effect; when `-h` comes first, `main` prints the usage
text on standard output and exits with success.  A command line of 1 to 3
arguments that consists only of valid options is not rejected: the first
effect of `main` is the help text on standard output or the check of the
configuration file. -/
theorem main_usage_errors (P : Platform) (env : MainEnv) (prog_name : List Char)
    (args : List (List Char)) :
    (args.length < 1 ∨ 3 < args.length →
        main P env prog_name args
          = ([Effect.print_stderr (usage_text prog_name)], .exits EXIT_FAILURE))
      ∧ (1 ≤ args.length → args.length ≤ 3 →
          ∀ (pre post : List OptRet) (c : Char), getopt_scan args = pre ++ OptRet.bad c :: post →
          OptRet.opt_h ∉ pre → (∀ c2, OptRet.bad c2 ∉ pre) →
          main P env prog_name args
            = ([Effect.getopt_diag c, Effect.print_stderr (usage_text prog_name)],
               .exits EXIT_FAILURE))
      ∧ (1 ≤ args.length → args.length ≤ 3 →
          ∀ (pre post : List OptRet), getopt_scan args = pre ++ OptRet.opt_h :: post →
          OptRet.opt_h ∉ pre → (∀ c2, OptRet.bad c2 ∉ pre) →
          main P env prog_name args
            = ([Effect.print_stdout (usage_text prog_name)], .exits EXIT_SUCCESS))
      ∧ (1 ≤ args.length → args.length ≤ 3 → valid_options args = true →
          (main P env prog_name args).1.head?
              = some (Effect.print_stdout (usage_text prog_name))
            ∨ ∃ config_path, (main P env prog_name args).1.head?
              = some (Effect.access_F_OK config_path)) := by
  refine ⟨?_, ?_, ?_, ?_⟩
  · intro h
    unfold main
    simp only
    rw [if_pos (by omega)]
    exact print_usage_failure prog_name
  · intro h1 h3 pre post c hscan hh hb
    rw [main_in_range P env prog_name args h1 h3, hscan,
      option_loop_bad_first prog_name c post pre _ _ hh hb]
    rfl
  · intro h1 h3 pre post hscan hh hb
    rw [main_in_range P env prog_name args h1 h3, hscan,
      option_loop_help_first prog_name post pre _ _ hh hb]
    rfl
  · intro h1 h3 hv
    rw [main_in_range P env prog_name args h1 h3]
    have hnb := valid_options_no_bad args.length args (le_refl _) hv
    rcases option_loop_no_bad prog_name (getopt_scan args) DEFAULT_CONFIG_FILE 0 hnb with
      h | ⟨cp, d, h⟩
    · left
      rw [h]
      rfl
    · right
      refine ⟨cp, ?_⟩
      rw [h]
      simp only [andThen, List.nil_append]
      exact main_startup_head P env cp d

/-- Witness for C8 as amended: the single argument `-x`, which `getopt`
reports as invalid. -/
theorem main_usage_errors_witness :
    1 ≤ ["-x".toList].length
      ∧ ["-x".toList].length ≤ 3
      ∧ getopt_scan ["-x".toList] = [] ++ OptRet.bad 'x' :: []
      ∧ main linux sample_env "my_daemon".toList ["-x".toList]
        = ([Effect.getopt_diag 'x', Effect.print_stderr (usage_text "my_daemon".toList)],
           .exits EXIT_FAILURE) :=
  ⟨by decide, by decide, by decide,
   (main_usage_errors linux sample_env "my_daemon".toList ["-x".toList]).2.1
      (by decide) (by decide) [] [] 'x' (by decide) (by simp) (by simp)⟩

/-- Counterexample to C8 as stated: the command line `-h -x` has two
arguments and contains the option `-x`, which `getopt` reports as invalid, yet
`main` prints the usage text on standard output and exits with success. -/
theorem main_help_before_invalid_option :
    ["-h".toList, "-x".toList].length = 2
      ∧ getopt_scan ["-h".toList, "-x".toList] = [OptRet.opt_h, OptRet.bad 'x']
      ∧ main linux sample_env "my_daemon".toList ["-h".toList, "-x".toList]
        = ([Effect.print_stdout (usage_text "my_daemon".toList)], .exits EXIT_SUCCESS) := by
  have hscan : getopt_scan ["-h".toList, "-x".toList] = [OptRet.opt_h, OptRet.bad 'x'] := by
    decide
  refine ⟨rfl, hscan, ?_⟩
  rw [main_in_range linux sample_env _ _ (by decide) (by decide), hscan]
  simp [option_loop, print_usage_success, andThen]

/-! ## `read_config` and the start of the server -/

theorem read_config_ok (P : Platform) (config_path : List Char) (call1 call2 : ParseCall)
    (g : Globals) (fp sp : List Char) (hret : call2.ret ≠ CFG_PARSE_ERROR)
    (hfp : (cfg_parse_store call2 (cfg_parse_store call1 g)).file_path = some fp)
    (hsp : (cfg_parse_store call2 (cfg_parse_store call1 g)).socket_path = some sp)
    (hfp0 : strlen fp ≠ 0) (hsp0 : strlen sp ≠ 0) :
    read_config P config_path call1 call2 g
      = ([Effect.cfg_parse config_path call1.ret, Effect.cfg_parse config_path call2.ret,
          Effect.cfg_free],
         .returns ({ file_path := strncpy fp P.PATH_MAX, socket_path := strncpy sp P.PATH_MAX },
                   cfg_parse_store call2 (cfg_parse_store call1 g))) := by
  unfold read_config
  simp only [if_neg hret, hfp, hsp, if_neg hfp0, if_neg hsp0]
  rfl

theorem read_config_empty_value (P : Platform) (config_path : List Char)
    (call1 call2 : ParseCall) (g : Globals) (fp sp : List Char)
    (hret : call2.ret ≠ CFG_PARSE_ERROR)
    (hfp : (cfg_parse_store call2 (cfg_parse_store call1 g)).file_path = some fp)
    (hsp : (cfg_parse_store call2 (cfg_parse_store call1 g)).socket_path = some sp)
    (hempty : strlen fp = 0 ∨ strlen sp = 0) :
    ∃ msg, read_config P config_path call1 call2 g
      = ([Effect.cfg_parse config_path call1.ret, Effect.cfg_parse config_path call2.ret,
          Effect.syslog .LOG_ERR msg, Effect.cfg_free], .exits EXIT_FAILURE) := by
  unfold read_config
  by_cases hfp0 : strlen fp = 0
  · exact ⟨_, by simp only [if_neg hret, hfp, if_pos hfp0]; rfl⟩
  · have hsp0 : strlen sp = 0 := by
      rcases hempty with h | h
      · exact absurd h hfp0
      · exact h
    exact ⟨_, by simp only [if_neg hret, hfp, hsp, if_neg hfp0, if_pos hsp0]; rfl⟩

theorem main_startup_of_exit (P : Platform) (env : MainEnv) (config_path : List Char)
    (is_daemonize : Int) (t : List Effect) (status : Int)
    (haF : env.access_F_ret ≠ -1) (haR : env.access_R_ret ≠ -1)
    (hcfg : read_config P config_path env.parse1 env.parse2 Globals.initial
      = (t, .exits status)) :
    main_startup P env config_path is_daemonize
      = ([Effect.access_F_OK config_path, Effect.access_R_OK config_path, Effect.openlog] ++ t,
         .exits status) := by
  unfold main_startup
  simp only [if_neg haF, if_neg haR, andThen, hcfg]

theorem main_startup_of_undefined (P : Platform) (env : MainEnv) (config_path : List Char)
    (is_daemonize : Int) (t : List Effect)
    (haF : env.access_F_ret ≠ -1) (haR : env.access_R_ret ≠ -1)
    (hcfg : read_config P config_path env.parse1 env.parse2 Globals.initial
      = (t, .undefined)) :
    main_startup P env config_path is_daemonize
      = ([Effect.access_F_OK config_path, Effect.access_R_OK config_path, Effect.openlog] ++ t,
         .undefined) := by
  unfold main_startup
  simp only [if_neg haF, if_neg haR, andThen, hcfg]

theorem main_startup_serving (P : Platform) (env : MainEnv) (config_path : List Char)
    (config : Config) (g0 g1 : Globals) (t_cfg t_srv : List Effect)
    (haF : env.access_F_ret ≠ -1) (haR : env.access_R_ret ≠ -1)
    (hcfg : read_config P config_path env.parse1 env.parse2 Globals.initial
      = (t_cfg, .returns (config, g0)))
    (hsrv : run_server P env.server g0 config = (t_srv, .returns g1)) :
    main_startup P env config_path 0
      = ([Effect.access_F_OK config_path, Effect.access_R_OK config_path, Effect.openlog]
          ++ t_cfg ++ [Effect.signal SIGTERM, Effect.signal SIGINT] ++ t_srv
          ++ [Effect.closelog], .returns EXIT_SUCCESS) := by
  unfold main_startup
  simp only [if_neg haF, if_neg haR, andThen, hcfg, hsrv]
  simp

/-! ## A socket path longer than `sun_path` -/

theorem long_socket_path_no_NUL : ∀ c ∈ long_socket_path, c ≠ NUL := by
  intro c hc
  unfold long_socket_path at hc
  rcases List.mem_cons.mp hc with rfl | hc
  · decide
  · rw [(List.mem_replicate.mp hc).2]
    decide

theorem long_socket_path_length : long_socket_path.length = 108 := by
  unfold long_socket_path
  rw [List.length_cons, List.length_replicate]

theorem long_socket_path_cut :
    sun_path_of linux long_socket_path = '/' :: List.replicate 106 'a' := by
  rw [sun_path_of_eq linux _ long_socket_path_no_NUL]
  show List.take 107 ('/' :: List.replicate 107 'a') = '/' :: List.replicate 106 'a'
  rw [List.take_succ_cons, List.take_replicate]
  rfl

theorem long_socket_path_cut_ne : '/' :: List.replicate 106 'a' ≠ long_socket_path := by
  intro h
  have hlen := congrArg List.length h
  rw [long_socket_path_length, List.length_cons, List.length_replicate] at hlen
  omega

/-- The whole run of the program with `long_socket_path` configured. -/
theorem long_path_run :
    main linux long_path_env "my_daemon".toList ["-c".toList, "/etc/my_daemon.conf".toList]
      = ([Effect.access_F_OK "/etc/my_daemon.conf".toList,
          Effect.access_R_OK "/etc/my_daemon.conf".toList,
          Effect.openlog,
          Effect.cfg_parse "/etc/my_daemon.conf".toList CFG_SUCCESS,
          Effect.cfg_parse "/etc/my_daemon.conf".toList CFG_SUCCESS,
          Effect.cfg_free,
          Effect.signal SIGTERM,
          Effect.signal SIGINT,
          Effect.unlink long_socket_path,
          Effect.socket 3,
          Effect.bind 3 ('/' :: List.replicate 106 'a') 0,
          Effect.listen 3 5 0,
          Effect.chmod long_socket_path 0o666,
          Effect.syslog .LOG_INFO ("Server started, monitoring file: ".toList
            ++ "/tmp/data".toList),
          Effect.syslog .LOG_INFO ("Listening on socket: ".toList ++ long_socket_path),
          Effect.close 3,
          Effect.unlink long_socket_path,
          Effect.syslog .LOG_INFO "Server stopped".toList,
          Effect.closelog], .returns EXIT_SUCCESS) := by
  have hfp_nn : ∀ c ∈ "/tmp/data".toList, c ≠ NUL := by decide
  have hcfg := read_config_ok linux "/etc/my_daemon.conf".toList long_path_env.parse1
    long_path_env.parse2 Globals.initial "/tmp/data".toList long_socket_path
    (by decide) rfl rfl (by decide)
    (by
      unfold strlen
      rw [c_str_eq_self _ long_socket_path_no_NUL, long_socket_path_length]
      decide)
  have hloop : (accept_loop long_path_env.server.socket_ret "/tmp/data".toList
      (deliver long_path_env.server.startup_signals
        (cfg_parse_store long_path_env.parse2
          (cfg_parse_store long_path_env.parse1 Globals.initial)))
      long_path_env.server.script)
      = ([], .returns (deliver long_path_env.server.startup_signals
        (cfg_parse_store long_path_env.parse2
          (cfg_parse_store long_path_env.parse1 Globals.initial)))) :=
    accept_loop_stopped _ _ _ _ rfl
  have hsrv := run_server_serving linux long_path_env.server
    (cfg_parse_store long_path_env.parse2 (cfg_parse_store long_path_env.parse1 Globals.initial))
    { file_path := strncpy "/tmp/data".toList linux.PATH_MAX,
      socket_path := strncpy long_socket_path linux.PATH_MAX }
    long_socket_path "/tmp/data".toList _
    (array_string_strncpy _ _ long_socket_path_no_NUL
      (by rw [long_socket_path_length]; decide))
    (array_string_strncpy _ _ hfp_nn (by decide))
    (by decide) (by decide) (by decide) (by rw [hloop])
  have hstart := main_startup_serving linux long_path_env "/etc/my_daemon.conf".toList _ _ _ _ _
    (by decide) (by decide) hcfg hsrv
  rw [main_in_range linux long_path_env _ _ (by decide) (by decide), getopt_scan_c]
  simp only [getopt_scan, option_loop, andThen, List.nil_append]
  rw [hstart, hloop]
  simp only [server_setup, server_cleanup, long_socket_path_cut]
  rfl

/-- The life of the endpoint for a socket path that fits into `sun_path`:
the stale node at the path is removed, the socket is bound to the same path,
the path is made world-accessible, nothing is removed while the loop runs,
and after the loop the socket is closed, the same path is removed and the
stop is logged. -/
theorem run_server_lifecycle (P : Platform) (env : ServerEnv) (g : Globals) (config : Config)
    (sp fp : List Char) (g1 : Globals)
    (hsp : array_string config.socket_path = some sp)
    (hfp : array_string config.file_path = some fp)
    (hshort : sp.length < P.SUN_PATH_SIZE)
    (hsock : env.socket_ret ≠ -1) (hbind : env.bind_ret ≠ -1) (hlisten : env.listen_ret ≠ -1)
    (hloop : (accept_loop env.socket_ret fp (deliver env.startup_signals g) env.script).2
      = .returns g1) :
    run_server P env g config
        = ([Effect.unlink sp, Effect.socket env.socket_ret,
            Effect.bind env.socket_ret sp env.bind_ret,
            Effect.listen env.socket_ret 5 env.listen_ret,
            Effect.chmod sp 0o666,
            Effect.syslog .LOG_INFO ("Server started, monitoring file: ".toList ++ fp),
            Effect.syslog .LOG_INFO ("Listening on socket: ".toList ++ sp)]
          ++ (accept_loop env.socket_ret fp (deliver env.startup_signals g) env.script).1
          ++ [Effect.close env.socket_ret, Effect.unlink sp,
              Effect.syslog .LOG_INFO "Server stopped".toList], .returns g1)
      ∧ unlinks_of (accept_loop env.socket_ret fp (deliver env.startup_signals g) env.script).1
        = [] := by
  have hnn : ∀ c ∈ sp, c ≠ NUL := by
    unfold array_string at hsp
    split at hsp
    · simp only [Option.some.injEq] at hsp
      rw [← hsp]
      exact c_str_no_NUL _
    · simp at hsp
  refine ⟨?_, accept_loop_no_unlink _ _ _ _⟩
  rw [run_server_serving P env g config sp fp g1 hsp hfp hsock hbind hlisten hloop]
  simp only [server_setup, server_cleanup, sun_path_of_short P sp hnn hshort]

/-- C5, at the failing input.  With a configured `socket_path` of 108
characters (on Linux, where `sun_path` has 108 bytes), `run_server` binds the
listening socket to the first 107 characters only, while both `unlink` calls
and `chmod` are given all 108: the address bound is not `socket_path`, and
the node `bind` creates is neither the node made world-accessible nor the
node removed. -/
theorem bind_address_is_cut :
    binds_of (main linux long_path_env "my_daemon".toList
        ["-c".toList, "/etc/my_daemon.conf".toList]).1
        = ['/' :: List.replicate 106 'a']
      ∧ unlinks_of (main linux long_path_env "my_daemon".toList
          ["-c".toList, "/etc/my_daemon.conf".toList]).1
        = [long_socket_path, long_socket_path]
      ∧ chmods_of (main linux long_path_env "my_daemon".toList
          ["-c".toList, "/etc/my_daemon.conf".toList]).1
        = [long_socket_path]
      ∧ '/' :: List.replicate 106 'a' ≠ long_socket_path
      ∧ long_socket_path.length = 108
      ∧ long_socket_path.length < linux.PATH_MAX := by
  rw [long_path_run]
  refine ⟨rfl, rfl, rfl, long_socket_path_cut_ne, long_socket_path_length, ?_⟩
  rw [long_socket_path_length]
  decide

/-- C6, at the failing input.  In the run with the 108-character
`socket_path`, where `socket`, `bind` and `listen` succeed and the flag is
found cleared at the first test of the loop, the stale node at `socket_path`
is removed before `bind`, the trace of `run_server` ends with `close` of the
listening socket, `unlink` and the log entry of the stop, and `main` returns
the success status; but the path removed at the end is not the address the
socket was bound to: the node of the endpoint is not among the paths handed
to `unlink`, so it is never removed. -/
theorem shutdown_leaves_bound_node :
    main linux long_path_env "my_daemon".toList ["-c".toList, "/etc/my_daemon.conf".toList]
      = ([Effect.access_F_OK "/etc/my_daemon.conf".toList,
          Effect.access_R_OK "/etc/my_daemon.conf".toList,
          Effect.openlog,
          Effect.cfg_parse "/etc/my_daemon.conf".toList CFG_SUCCESS,
          Effect.cfg_parse "/etc/my_daemon.conf".toList CFG_SUCCESS,
          Effect.cfg_free,
          Effect.signal SIGTERM,
          Effect.signal SIGINT,
          Effect.unlink long_socket_path,
          Effect.socket 3,
          Effect.bind 3 ('/' :: List.replicate 106 'a') 0,
          Effect.listen 3 5 0,
          Effect.chmod long_socket_path 0o666,
          Effect.syslog .LOG_INFO ("Server started, monitoring file: ".toList
            ++ "/tmp/data".toList),
          Effect.syslog .LOG_INFO ("Listening on socket: ".toList ++ long_socket_path),
          Effect.close 3,
          Effect.unlink long_socket_path,
          Effect.syslog .LOG_INFO "Server stopped".toList,
          Effect.closelog], .returns EXIT_SUCCESS)
      ∧ '/' :: List.replicate 106 'a' ∉
          unlinks_of (main linux long_path_env "my_daemon".toList
            ["-c".toList, "/etc/my_daemon.conf".toList]).1 := by
  refine ⟨long_path_run, ?_⟩
  rw [long_path_run]
  intro hmem
  have hmem2 : '/' :: List.replicate 106 'a' ∈ [long_socket_path, long_socket_path] := hmem
  simp only [List.mem_cons, List.mem_singleton, List.not_mem_nil, or_false, or_self] at hmem2
  exact long_socket_path_cut_ne hmem2

/-- C7, at the failing input.  With a configuration file that gives
`file_path` and has no key `socket_path`, the pointer `socket_path` is still
null when `read_config` calls `strlen` on it: the execution has no defined
meaning at that point, nothing has been logged, and the process has not
exited with the failure status. -/
theorem read_config_missing_key :
    read_config linux "/etc/my_daemon.conf".toList missing_key_env.parse1
        missing_key_env.parse2 Globals.initial
        = ([Effect.cfg_parse "/etc/my_daemon.conf".toList CFG_SUCCESS,
            Effect.cfg_parse "/etc/my_daemon.conf".toList CFG_SUCCESS], .undefined)
      ∧ main linux missing_key_env "my_daemon".toList
          ["-c".toList, "/etc/my_daemon.conf".toList]
        = ([Effect.access_F_OK "/etc/my_daemon.conf".toList,
            Effect.access_R_OK "/etc/my_daemon.conf".toList,
            Effect.openlog,
            Effect.cfg_parse "/etc/my_daemon.conf".toList CFG_SUCCESS,
            Effect.cfg_parse "/etc/my_daemon.conf".toList CFG_SUCCESS], .undefined)
      ∧ logs_of (main linux missing_key_env "my_daemon".toList
          ["-c".toList, "/etc/my_daemon.conf".toList]).1 = [] := by
  have hcfg : read_config linux "/etc/my_daemon.conf".toList missing_key_env.parse1
      missing_key_env.parse2 Globals.initial
      = ([Effect.cfg_parse "/etc/my_daemon.conf".toList CFG_SUCCESS,
          Effect.cfg_parse "/etc/my_daemon.conf".toList CFG_SUCCESS], .undefined) := by
    decide
  have hmain : main linux missing_key_env "my_daemon".toList
      ["-c".toList, "/etc/my_daemon.conf".toList]
      = ([Effect.access_F_OK "/etc/my_daemon.conf".toList,
          Effect.access_R_OK "/etc/my_daemon.conf".toList,
          Effect.openlog,
          Effect.cfg_parse "/etc/my_daemon.conf".toList CFG_SUCCESS,
          Effect.cfg_parse "/etc/my_daemon.conf".toList CFG_SUCCESS], .undefined) := by
    rw [main_in_range linux missing_key_env _ _ (by decide) (by decide), getopt_scan_c]
    simp only [getopt_scan, option_loop, andThen, List.nil_append]
    rw [main_startup_of_undefined linux missing_key_env _ 0 _ (by decide) (by decide) hcfg]
    rfl
  refine ⟨hcfg, hmain, ?_⟩
  rw [hmain]
  rfl

end Daemon
